import Mathlib

/-!
# Website audit server (`src/backend/server.js`)

A shallow embedding of the audit endpoint: the issue normaliser inside
`runLighthouseScan` (`mapAuditsToIssues`), the security scanner
`runSecurityScan`, and the request handler of `POST /api/audit`.

Modelling conventions.

* JavaScript numbers are rationals.  The two places where the source performs
  a floating-point operation on engine-supplied doubles (`score * 100`,
  `overallSavingsMs / 1000`) round the exact result through `Platform.fl`,
  an arbitrary monotone rounding that is exact on 53-bit dyadic rationals.
* The one Number printed by a template literal fed by engine data (line 97) is
  printed by `Platform.numberToString`, which is the decimal form up to `2^53`.
* Time values are integer milliseconds.  A difference of two time values has
  magnitude below `2^53`, so `expiryDate - new Date()` is exact, and, the
  difference being an integer, its quotient by `86400000` lies strictly on the
  same side of `0` and of `30` and has the same floor as the rounded double:
  these are computed on the exact quotient.
* What the platform supplies (the `URL` constructor, `Date` parsing, the
  outcome of the TLS request, the engine, the browser launcher, the clock) is
  an explicit input.
* A thrown exception or a rejected promise is `Except.error`.
* Strings are sequences of Unicode characters; the pattern of the regular
  expression is ASCII, so matching by character or by UTF-16 code unit gives
  the same spans.
-/

namespace Server

/-! ## Data model -/

/-- The three priorities an issue can carry. -/
inductive Priority where
  | low
  | medium
  | critical
  deriving DecidableEq, Repr

/-- One normalised finding. -/
structure Issue where
  title : String
  priority : Priority
  description : String
  recommendation : String
  deriving DecidableEq, Repr

/-- One scored section of the report. -/
structure Category where
  title : String
  icon : String
  score : Int
  issues : List Issue
  deriving DecidableEq, Repr

/-- The object sent by `res.json(finalReport)`. -/
structure Report where
  security : Category
  performance : Category
  seo : Category
  accessibility : Category
  deriving DecidableEq, Repr

/-- Exceptions the modelled code can raise. -/
inductive JsError where
  | typeError
  | invalidUrl
  | engineFailure
  | launchFailure
  deriving DecidableEq, Repr

deriving instance DecidableEq for Except

/-! ## The regular expression `/\[(.*?)\]\(.*?\)/g` -/

/-- Characters that `.` does not match: LF, CR, U+2028, U+2029. -/
def isLineTerminator (c : Char) : Bool :=
  c.toNat = 10 || c.toNat = 13 || c.toNat = 8232 || c.toNat = 8233

/-- The tail `.*?\)` of the pattern, tried at the given input: the lazy star
stops at the first `)` and cannot cross a line terminator.  Returns the input
left after the match. -/
def matchTarget : List Char → Option (List Char)
  | [] => none
  | c :: cs =>
    if c = ')' then some cs
    else if isLineTerminator c then none
    else matchTarget cs

/-- The part `\]\(.*?\)` of the pattern, tried at the given input. -/
def matchClose : List Char → Option (List Char)
  | ']' :: '(' :: cs => matchTarget cs
  | _ => none

/-- The part `(.*?)\]\(.*?\)` of the pattern, tried right after a `[`: the
lazy group first tries to stop, and only when the rest of the pattern fails
from here does it take one more character (never a line terminator).  Returns
the text of group 1 and the input left after the match. -/
def matchLink : List Char → Option (List Char × List Char)
  | [] => none
  | c :: cs =>
    match matchClose (c :: cs) with
    | some rest => some ([], rest)
    | none =>
      if isLineTerminator c then none
      else
        match matchLink cs with
        | some (g, rest) => some (c :: g, rest)
        | none => none

/-- Global replacement of every match by `$1`, scanning left to right from
`fuel` characters of budget: at each position the pattern is tried; on a match
group 1 is emitted and scanning resumes after the match, otherwise the
character is copied. -/
def replaceLinks : Nat → List Char → List Char
  | 0, s => s
  | _ + 1, [] => []
  | fuel + 1, c :: cs =>
    if c = '[' then
      match matchLink cs with
      | some (g, rest) => g ++ replaceLinks fuel rest
      | none => c :: replaceLinks fuel cs
    else c :: replaceLinks fuel cs

/-- The expression `s.replace(/\[(.*?)\]\(.*?\)/g, '$1')` on the characters of
`s`; one unit of budget per character is always enough. -/
def stripChars (s : List Char) : List Char :=
  replaceLinks s.length s

/-- The expression `s.replace(/\[(.*?)\]\(.*?\)/g, '$1')`. -/
def strip (s : String) : String :=
  String.mk (stripChars s.data)

/-- The text holds a link: the pattern matches at some `[` of it, that is
`/\[(.*?)\]\(.*?\)/.test(s)` is true. -/
def HasLink (s : List Char) : Prop :=
  ∃ (before after group rest : List Char),
    s = before ++ '[' :: after ∧ matchLink after = some (group, rest)

/-! ## Platform -/

/-- The properties of a `URL` object the scanner reads. -/
structure ParsedUrl where
  hostname : String
  port : String
  pathname : String
  deriving DecidableEq, Repr

/-- What the JavaScript platform supplies.  `fl` rounds an exact rational
result to a double; `numberToString n` is the string a template literal prints
for the Number of integral value `n` (its decimal digits up to `2^53`; above,
the shortest digits that read back as the same double, padded with zeros, and
exponent form from `10^21`); `urlParse` is `new URL(url)` (`none` when the
constructor throws); `dateParse` is the time value of `new Date(s)` in
milliseconds (`none` for an invalid date, whose time value is NaN). -/
structure Platform where
  fl : ℚ → ℚ
  fl_mono : ∀ a b : ℚ, a ≤ b → fl a ≤ fl b
  fl_exact : ∀ (m : ℤ) (e : ℕ), |m| < 2 ^ 53 → e ≤ 1074 →
    fl ((m : ℚ) / 2 ^ e) = (m : ℚ) / 2 ^ e
  numberToString : Int → String
  numberToString_decimal : ∀ n : Int, |n| ≤ 2 ^ 53 → numberToString n = toString n
  urlParse : String → Option ParsedUrl
  dateParse : String → Option Int

/-- The function `Math.round`: the nearest integer, ties towards `+∞`. -/
def mathRound (x : ℚ) : Int :=
  ⌊x + 1 / 2⌋

/-- The function `Math.floor`. -/
def mathFloor (x : ℚ) : Int :=
  ⌊x⌋

/-- Conversion of `null` or a number to a number, as done by `<` and `*`. -/
def toNumber : Option ℚ → ℚ
  | none => 0
  | some q => q

/-- The method `String.prototype.startsWith`. -/
def startsWith (s pre : String) : Bool :=
  pre.data.isPrefixOf s.data

/-! ## Lighthouse scan -/

/-- The `details` object of an audit; `overallSavingsMs` may be missing. -/
structure Details where
  overallSavingsMs : Option ℚ

/-- One audit record of the engine report: `score` is a number or `null`
(`none`); `description` and `details` may be missing. -/
structure Audit where
  score : Option ℚ
  title : String
  description : Option String
  details : Option Details

/-- One entry of a category's `auditRefs`. -/
structure AuditRef where
  id : String

/-- One entry of `report.categories`: `score` is a number or `null`. -/
structure LhCategory where
  score : Option ℚ
  auditRefs : List AuditRef

/-- The object `report.categories`. -/
structure Categories where
  performance : LhCategory
  seo : LhCategory
  accessibility : LhCategory

/-- The engine report `runnerResult.lhr`; `audits id` is `report.audits[id]`,
`none` when it is `undefined`. -/
structure Lhr where
  audits : String → Option Audit
  categories : Categories

/-- The three categories `runLighthouseScan` returns. -/
structure LighthouseResults where
  performance : Category
  seo : Category
  accessibility : Category

/-- Lines 90-92: `low`, then `medium` if `score < 0.5`, then `critical` if
`score === 0`. -/
def priorityOf (score : Option ℚ) : Priority :=
  let priority := Priority.low
  let priority := if toNumber score < 1 / 2 then Priority.medium else priority
  let priority := if score = some 0 then Priority.critical else priority
  priority

/-- The value of `audit.details && audit.details.overallSavingsMs` when it is
truthy: a number other than zero. -/
def truthySavings (details : Option Details) : Option ℚ :=
  match details with
  | none => none
  | some d =>
    match d.overallSavingsMs with
    | none => none
    | some ms => if ms = 0 then none else some ms

/-- Template literal of line 97, for `Math.round(...)` of integral value
`seconds`: the Number is printed by the platform. -/
def savingsText (P : Platform) (seconds : Int) : String :=
  "Optimizing this could save up to " ++ P.numberToString seconds ++ "s."

/-- Lines 95-101. -/
def recommendationOf (P : Platform) (audit : Audit) : String :=
  let recommendation := "See Lighthouse report for details."
  match truthySavings audit.details with
  | some ms => savingsText P (mathRound (P.fl (ms / 1000)))
  | none =>
    match audit.description with
    | some d => if d = "" then recommendation else strip d
    | none => recommendation

/-- The callback of the second `.map` (lines 89-109): `audit.description.replace`
throws a `TypeError` when the description is `undefined`. -/
def auditToIssue (P : Platform) (audit : Audit) : Except JsError Issue :=
  let priority := priorityOf audit.score
  let recommendation := recommendationOf P audit
  match audit.description with
  | none => .error .typeError
  | some d =>
    .ok { title := audit.title, priority := priority, description := strip d,
          recommendation := recommendation }

/-- The predicate of the `.filter` (line 88). -/
def keepAudit (audit : Audit) : Bool :=
  audit.score ≠ some 1 && audit.score ≠ none

/-- The `.filter` of line 88 over the looked-up records: reading `.score` of
`undefined` throws a `TypeError`. -/
def filterAudits : List (Option Audit) → Except JsError (List Audit)
  | [] => .ok []
  | none :: _ => .error .typeError
  | some audit :: rest =>
    match filterAudits rest with
    | .error e => .error e
    | .ok kept => .ok (if keepAudit audit then audit :: kept else kept)

/-- The second `.map` of line 89 over the kept records. -/
def mapIssues (P : Platform) : List Audit → Except JsError (List Issue)
  | [] => .ok []
  | audit :: rest =>
    match auditToIssue P audit with
    | .error e => .error e
    | .ok issue =>
      match mapIssues P rest with
      | .error e => .error e
      | .ok issues => .ok (issue :: issues)

/-- The helper `mapAuditsToIssues` (lines 85-110). -/
def mapAuditsToIssues (P : Platform) (report : Lhr) (auditRefs : List AuditRef) :
    Except JsError (List Issue) :=
  match filterAudits (auditRefs.map (fun ref => report.audits ref.id)) with
  | .error e => .error e
  | .ok kept => mapIssues P kept

/-- The expression `Math.round(category.score * 100)`. -/
def categoryScore (P : Platform) (c : LhCategory) : Int :=
  mathRound (P.fl (toNumber c.score * 100))

/-- The function `runLighthouseScan` given the outcome of the engine call. -/
def runLighthouseScan (P : Platform) (engine : Except JsError Lhr) :
    Except JsError LighthouseResults :=
  match engine with
  | .error e => .error e
  | .ok report =>
    match mapAuditsToIssues P report report.categories.performance.auditRefs with
    | .error e => .error e
    | .ok perfIssues =>
      match mapAuditsToIssues P report report.categories.seo.auditRefs with
      | .error e => .error e
      | .ok seoIssues =>
        match mapAuditsToIssues P report report.categories.accessibility.auditRefs with
        | .error e => .error e
        | .ok a11yIssues =>
          .ok { performance :=
                  { title := "Performance", icon := "zap",
                    score := categoryScore P report.categories.performance,
                    issues := perfIssues },
                seo :=
                  { title := "SEO", icon := "trending-up",
                    score := categoryScore P report.categories.seo,
                    issues := seoIssues },
                accessibility :=
                  { title := "Accessibility", icon := "person-standing",
                    score := categoryScore P report.categories.accessibility,
                    issues := a11yIssues } }

/-! ## Security scan -/

/-- The peer certificate object; `valid_to` is missing on the empty object
returned when the peer sent no certificate. -/
structure PeerCertificate where
  valid_to : Option String

/-- The response `res` passed to the request callback: `headers name` is
`res.headers[name]` (`none` when `undefined`), `peerCertificate` the value of
`res.socket.getPeerCertificate()` (`none` when `null`). -/
structure IncomingMessage where
  headers : String → Option String
  peerCertificate : Option PeerCertificate

/-- How the TLS request ends: the response callback runs, the request emits
`error`, or the call `https.request(options, ...)` itself throws on its options
(as it does on a path holding a space). -/
inductive RequestOutcome where
  | response (res : IncomingMessage)
  | error (message : String)
  | throws

/-- Truthiness of a header value or of `valid_to`: defined and not empty. -/
def truthy (v : Option String) : Bool :=
  match v with
  | none => false
  | some s => s ≠ ""

/-- Issue pushed at line 154. -/
def hstsIssue : Issue :=
  { title := "HTTP Strict Transport Security (HSTS) Not Enabled",
    priority := .critical,
    description := "HSTS header is missing, leaving the site vulnerable to protocol downgrade attacks and cookie hijacking.",
    recommendation := "Implement the HSTS header to force browsers to always use HTTPS." }

/-- Issue pushed at line 160. -/
def cspIssue : Issue :=
  { title := "Content Security Policy (CSP) Not Found",
    priority := .medium,
    description := "CSP header is not configured, increasing the risk of Cross-Site Scripting (XSS) attacks.",
    recommendation := "Implement a strict CSP to control which resources can be loaded and executed." }

/-- Issue pushed at line 166. -/
def frameOptionsIssue : Issue :=
  { title := "Clickjacking Protection Missing",
    priority := .medium,
    description := "The X-Frame-Options header is not set, which could allow an attacker to embed your site in a malicious one.",
    recommendation := "Set the X-Frame-Options header to \"DENY\" or \"SAMEORIGIN\" to prevent clickjacking." }

/-- Issue pushed at line 176. -/
def expiredIssue : Issue :=
  { title := "SSL Certificate Expired",
    priority := .critical,
    description := "The SSL/TLS certificate has expired, which will cause browsers to show security warnings to users.",
    recommendation := "Renew the SSL certificate immediately to restore trust and security." }

/-- Issue pushed at line 179, for `Math.floor(daysUntilExpiry) = days`. -/
def expiringIssue (days : Int) : Issue :=
  { title := "SSL Certificate Expiring Soon",
    priority := .low,
    description := "The SSL/TLS certificate expires in " ++ toString days ++ " days.",
    recommendation := "Renew the SSL certificate soon to avoid service interruption and security warnings." }

/-- Issue pushed at line 183. -/
def invalidIssue : Issue :=
  { title := "SSL Certificate Invalid",
    priority := .critical,
    description := "Could not validate the SSL/TLS certificate. This will cause major browser warnings.",
    recommendation := "Ensure a valid, trusted SSL certificate is installed correctly on the server." }

/-- Issue of line 201. -/
def connectIssue (hostname : String) : Issue :=
  { title := "Could Not Connect for Security Scan",
    priority := .critical,
    description := "Failed to perform security scan. Could not connect to the host at " ++ hostname ++ ". This could be a firewall issue or the server is down.",
    recommendation := "Ensure the domain is correct and the server is accessible over HTTPS (port 443)." }

/-- The two accumulators of `runSecurityScan`. -/
structure Scan where
  issues : List Issue
  score : Int
  deriving DecidableEq, Repr

/-- Lines 152-156. -/
def checkHsts (res : IncomingMessage) (st : Scan) : Scan :=
  if !truthy (res.headers "strict-transport-security") then
    { issues := st.issues ++ [hstsIssue], score := st.score - 25 }
  else st

/-- Lines 158-162. -/
def checkCsp (res : IncomingMessage) (st : Scan) : Scan :=
  if !truthy (res.headers "content-security-policy") then
    { issues := st.issues ++ [cspIssue], score := st.score - 20 }
  else st

/-- Lines 164-168. -/
def checkFrameOptions (res : IncomingMessage) (st : Scan) : Scan :=
  if !truthy (res.headers "x-frame-options") then
    { issues := st.issues ++ [frameOptionsIssue], score := st.score - 20 }
  else st

/-- The constant `1000 * 60 * 60 * 24`. -/
def msPerDay : ℚ :=
  1000 * 60 * 60 * 24

/-- The value of `certificate.valid_to` when `certificate && certificate.valid_to`
is truthy. -/
def usableValidTo (certificate : Option PeerCertificate) : Option String :=
  match certificate with
  | none => none
  | some c => if truthy c.valid_to then c.valid_to else none

/-- Lines 170-185.  With an invalid date `daysUntilExpiry` is NaN and both
comparisons are false. -/
def checkCertificate (P : Platform) (now : Int) (res : IncomingMessage) (st : Scan) : Scan :=
  match usableValidTo res.peerCertificate with
  | some validTo =>
    match P.dateParse validTo with
    | none => st
    | some expiryDate =>
      let daysUntilExpiry : ℚ := ((expiryDate - now : Int) : ℚ) / msPerDay
      if daysUntilExpiry < 0 then
        { issues := st.issues ++ [expiredIssue], score := 0 }
      else if daysUntilExpiry < 30 then
        { issues := st.issues ++ [expiringIssue (mathFloor daysUntilExpiry)],
          score := st.score - 10 }
      else st
  | none => { issues := st.issues ++ [invalidIssue], score := 0 }

/-- The state after the three header checks, started from no issue and
score 100. -/
def headerChecks (res : IncomingMessage) : Scan :=
  checkFrameOptions res (checkCsp res (checkHsts res { issues := [], score := 100 }))

/-- The state after the four checks. -/
def scanResponse (P : Platform) (now : Int) (res : IncomingMessage) : Scan :=
  checkCertificate P now res (headerChecks res)

/-- The response callback (lines 151-193): the value the promise resolves to. -/
def onResponse (P : Platform) (now : Int) (res : IncomingMessage) : Category :=
  let st := scanResponse P now res
  { title := "Security", icon := "shield", score := max 0 st.score, issues := st.issues }

/-- The `error` listener (lines 195-203): the value the promise resolves to. -/
def onError (parsedUrl : ParsedUrl) : Category :=
  { title := "Security", icon := "shield", score := 0,
    issues := [connectIssue parsedUrl.hostname] }

/-- The function `runSecurityScan`: `new URL(url)` and `https.request` run
inside the promise executor, so an exception of either rejects the promise;
otherwise the promise resolves in the response callback (run at time `now`) or
in the `error` listener. -/
def runSecurityScan (P : Platform) (url : String) (now : Int) (outcome : RequestOutcome) :
    Except JsError Category :=
  match P.urlParse url with
  | none => .error .invalidUrl
  | some parsedUrl =>
    match outcome with
    | .response res => .ok (onResponse P now res)
    | .error _ => .ok (onError parsedUrl)
    | .throws => .error .typeError

/-! ## Request handler -/

/-- A value of `req.body.url`. -/
inductive JsValue where
  | undefined
  | null
  | bool (b : Bool)
  | number (n : ℚ)
  | string (s : String)
  | object

/-- Truthiness of a value. -/
def JsValue.truthy : JsValue → Bool
  | .undefined => false
  | .null => false
  | .bool b => b
  | .number n => n ≠ 0
  | .string s => s ≠ ""
  | .object => true

/-- Calls the handler makes to its collaborators. -/
inductive Event where
  | launch
  | lighthouseScan
  | securityScan
  | kill
  deriving DecidableEq, Repr

/-- Body of a response. -/
inductive Body where
  | error (message : String)
  | report (r : Report)
  deriving DecidableEq, Repr

/-- Status and JSON body of a response. -/
structure HttpResponse where
  status : Nat
  body : Body
  deriving DecidableEq, Repr

/-- What one run of the handler did: the response sent (`none` when the handler
threw before sending one) and its calls, in order. -/
structure Handled where
  response : Option HttpResponse
  events : List Event
  deriving DecidableEq, Repr

/-- Outcomes of the collaborators during one request: `launch` is the port of
the launched browser or the launcher's failure, `engine` the outcome of the
`lighthouse(url, ...)` call, `request` the outcome of the TLS request, `now`
the clock read in the response callback. -/
structure World where
  platform : Platform
  launch : Except JsError Nat
  engine : Except JsError Lhr
  request : RequestOutcome
  now : Int

/-- Response of line 24. -/
def badRequest : HttpResponse :=
  { status := 400, body := .error "A valid URL is required." }

/-- Response of line 51. -/
def serverError : HttpResponse :=
  { status := 500,
    body := .error "Failed to complete the audit. The URL may be invalid or the server is down." }

/-- The handler of `POST /api/audit` (lines 19-59).  A truthy value that is
not a string has no `startsWith` method: the call at line 23 throws outside the
`try`.  Both scan functions are called before `Promise.all` is awaited; the
`finally` block kills the browser whenever the launch returned one. -/
def auditHandler (W : World) (url : JsValue) : Handled :=
  if !url.truthy then { response := some badRequest, events := [] }
  else
    match url with
    | .string s =>
      if !startsWith s "http" then { response := some badRequest, events := [] }
      else
        match W.launch with
        | .error _ => { response := some serverError, events := [.launch] }
        | .ok _ =>
          match runLighthouseScan W.platform W.engine,
                runSecurityScan W.platform s W.now W.request with
          | .ok lighthouseResults, .ok securityResults =>
            { response := some
                { status := 200,
                  body := .report
                    { security := securityResults,
                      performance := lighthouseResults.performance,
                      seo := lighthouseResults.seo,
                      accessibility := lighthouseResults.accessibility } },
              events := [.launch, .lighthouseScan, .securityScan, .kill] }
          | _, _ =>
            { response := some serverError,
              events := [.launch, .lighthouseScan, .securityScan, .kill] }
    | _ => { response := none, events := [] }

/-! ## Example inputs -/

/-- Exact arithmetic, decimal printing (which is the platform's up to `2^53`,
all the examples below need), and the platform's `URL` and `Date` results on
the two strings used in the examples below (every other string is left
unparsed). -/
def nodeFragment : Platform where
  fl := id
  fl_mono := fun _ _ h => h
  fl_exact := fun _ _ _ _ => rfl
  numberToString := fun n => toString n
  numberToString_decimal := fun _ _ => rfl
  urlParse := fun s =>
    if s = "https://example.com/" then
      some { hostname := "example.com", port := "", pathname := "/" }
    else none
  dateParse := fun s =>
    if s = "Jan  1 00:00:00 2030 GMT" then some 1893456000000 else none

/-- An audit record with a link in its description and 2.4 s of savings. -/
def unusedJsAudit : Audit :=
  { score := some (1 / 4), title := "Reduce unused JavaScript",
    description := some "Remove unused code. [Learn more](https://web.dev/unused).",
    details := some { overallSavingsMs := some 2400 } }

/-- The same record as the engine reports it when it estimates no savings. -/
def zeroSavingsAudit : Audit :=
  { score := some (1 / 4), title := "Reduce unused JavaScript",
    description := some "Remove unused code.",
    details := some { overallSavingsMs := some 0 } }

/-- A passing record. -/
def viewportAudit : Audit :=
  { score := some 1, title := "Has a viewport tag",
    description := some "A viewport tag optimizes the page for mobile screens.",
    details := none }

/-- An engine report with two referenced performance audits, one passing. -/
def demoLhr : Lhr :=
  { audits := fun id =>
      if id = "viewport" then some viewportAudit
      else if id = "unused-javascript" then some unusedJsAudit
      else none,
    categories :=
      { performance :=
          { score := some (87 / 100),
            auditRefs := [{ id := "viewport" }, { id := "unused-javascript" }] },
        seo := { score := some 1, auditRefs := [] },
        accessibility := { score := some (1 / 2), auditRefs := [] } } }

/-- What `runLighthouseScan` returns on `demoLhr`. -/
def demoResults : LighthouseResults :=
  { performance :=
      { title := "Performance", icon := "zap", score := 87,
        issues :=
          [{ title := "Reduce unused JavaScript", priority := .medium,
             description := "Remove unused code. Learn more.",
             recommendation := "Optimizing this could save up to 2s." }] },
    seo := { title := "SEO", icon := "trending-up", score := 100, issues := [] },
    accessibility :=
      { title := "Accessibility", icon := "person-standing", score := 50, issues := [] } }

/-- A response without any of the three headers, with a certificate valid
until 2030. -/
def bareResponse : IncomingMessage :=
  { headers := fun _ => none,
    peerCertificate := some { valid_to := some "Jan  1 00:00:00 2030 GMT" } }

/-- A response in which every header is present with an empty value, with the
same certificate. -/
def emptyValuedResponse : IncomingMessage :=
  { headers := fun _ => some "",
    peerCertificate := some { valid_to := some "Jan  1 00:00:00 2030 GMT" } }

/-- A response carrying the three headers, with the same certificate. -/
def hardenedResponse : IncomingMessage :=
  { headers := fun name =>
      if name = "strict-transport-security" then some "max-age=31536000"
      else if name = "content-security-policy" then some "default-src https:"
      else if name = "x-frame-options" then some "DENY"
      else none,
    peerCertificate := some { valid_to := some "Jan  1 00:00:00 2030 GMT" } }

/-- Midnight UTC of 5 November 2026, in milliseconds. -/
def november2026 : Int :=
  1793836800000

/-- Midnight UTC of 1 February 2030, in milliseconds: one month after the
certificate of the example responses expired. -/
def february2030 : Int :=
  1896134400000

/-- A request served in November 2026: the browser launches, the engine
returns `demoLhr`, the host answers `bareResponse`. -/
def demoWorld : World :=
  { platform := nodeFragment, launch := .ok 9222, engine := .ok demoLhr,
    request := .response bareResponse, now := november2026 }

/-- The report of `demoWorld` for `https://example.com/`. -/
def demoReport : Report :=
  { security :=
      { title := "Security", icon := "shield", score := 35,
        issues := [hstsIssue, cspIssue, frameOptionsIssue] },
    performance := demoResults.performance,
    seo := demoResults.seo,
    accessibility := demoResults.accessibility }

/-- The request of `demoWorld` served in February 2030, after the certificate
expired. -/
def lateWorld : World :=
  { platform := nodeFragment, launch := .ok 9222, engine := .ok demoLhr,
    request := .response bareResponse, now := february2030 }

/-- The report of `lateWorld` for `https://example.com/`. -/
def lateReport : Report :=
  { security :=
      { title := "Security", icon := "shield", score := 0,
        issues := [hstsIssue, cspIssue, frameOptionsIssue, expiredIssue] },
    performance := demoResults.performance,
    seo := demoResults.seo,
    accessibility := demoResults.accessibility }

/-- Midnight UTC of 25 December 2026, in milliseconds. -/
def christmas2026 : Int :=
  1798156800000

/-- The request of `demoWorld` served fifty days later, with the browser
listening on another port. -/
def christmasWorld : World :=
  { platform := nodeFragment, launch := .ok 9333, engine := .ok demoLhr,
    request := .response bareResponse, now := christmas2026 }

/-- The request of `demoWorld` when the browser cannot be launched. -/
def failedLaunchWorld : World :=
  { platform := nodeFragment, launch := .error .launchFailure, engine := .ok demoLhr,
    request := .response bareResponse, now := november2026 }

/-- The request of `demoWorld` when the engine call fails. -/
def failedEngineWorld : World :=
  { platform := nodeFragment, launch := .ok 9222, engine := .error .engineFailure,
    request := .response bareResponse, now := november2026 }

/-- A response carrying the three headers, with a certificate whose expiry
field is the text printed for a malformed time. -/
def badTimeResponse : IncomingMessage :=
  { headers := hardenedResponse.headers,
    peerCertificate := some { valid_to := some "Bad time value" } }

/-- Noon UTC of 20 December 2029, in milliseconds: eleven days and a half
before the certificate of the example responses expires. -/
def december2029 : Int :=
  1892462400000

/-- Midnight UTC of 2 December 2029, in milliseconds: thirty days to the
millisecond before the certificate of the example responses expires. -/
def thirtyDaysBefore : Int :=
  1890864000000

/-- A failing record without description and without details. -/
def undescribedAudit : Audit :=
  { score := some (1 / 2), title := "Document has a meta description",
    description := none, details := none }

/-- An engine report whose only referenced audit is `undescribedAudit`. -/
def undescribedLhr : Lhr :=
  { audits := fun id => if id = "meta-description" then some undescribedAudit else none,
    categories :=
      { performance := { score := some 1, auditRefs := [] },
        seo := { score := some (9 / 10), auditRefs := [{ id := "meta-description" }] },
        accessibility := { score := some 1, auditRefs := [] } } }

/-- The request of `demoWorld` when the engine returns `undescribedLhr`. -/
def undescribedWorld : World :=
  { platform := nodeFragment, launch := .ok 9222, engine := .ok undescribedLhr,
    request := .response bareResponse, now := november2026 }

/-! ## Link stripping -/

theorem matchTarget_length :
    ∀ (cs r : List Char), matchTarget cs = some r → r.length < cs.length
  | [], r, h => by simp [matchTarget] at h
  | c :: cs, r, h => by
    simp only [matchTarget] at h
    split_ifs at h with h1 h2
    · cases h
      simp
    · have := matchTarget_length cs r h
      simp only [List.length_cons]
      omega

theorem matchClose_length (cs r : List Char) (h : matchClose cs = some r) :
    r.length < cs.length := by
  unfold matchClose at h
  split at h
  · have := matchTarget_length _ _ h
    simp only [List.length_cons]
    omega
  · cases h

theorem matchLink_length :
    ∀ (cs g r : List Char), matchLink cs = some (g, r) → r.length < cs.length
  | [], g, r, h => by simp [matchLink] at h
  | c :: cs, g, r, h => by
    simp only [matchLink] at h
    split at h
    · rename_i rest hc
      cases h
      exact matchClose_length _ _ hc
    · split_ifs at h
      split at h
      · rename_i g1 r1 hl
        cases h
        have := matchLink_length cs g1 r hl
        simp only [List.length_cons]
        omega
      · cases h

/-- Any budget of at least one unit per character gives the same result. -/
theorem replaceLinks_fuel :
    ∀ (n m : Nat) (s : List Char), s.length ≤ n → s.length ≤ m →
      replaceLinks n s = replaceLinks m s := by
  intro n
  induction n with
  | zero =>
    intro m s hn _
    have hs : s = [] := List.length_eq_zero.mp (Nat.le_zero.mp hn)
    subst hs
    cases m <;> rfl
  | succ n ih =>
    intro m s hn hm
    cases s with
    | nil => cases m <;> rfl
    | cons c cs =>
      cases m with
      | zero => simp at hm
      | succ m =>
        simp only [List.length_cons, Nat.add_le_add_iff_right] at hn hm
        simp only [replaceLinks]
        split_ifs
        · split
          · rename_i g rest hl
            have := matchLink_length cs g rest hl
            rw [ih m rest (by omega) (by omega)]
          · rw [ih m cs hn hm]
        · rw [ih m cs hn hm]

/-- A text without `[` has no match and is copied unchanged. -/
theorem replaceLinks_no_bracket :
    ∀ (n : Nat) (s : List Char), '[' ∉ s → replaceLinks n s = s := by
  intro n
  induction n with
  | zero => intro s _; rfl
  | succ n ih =>
    intro s hs
    cases s with
    | nil => rfl
    | cons c cs =>
      have hc : c ≠ '[' := fun h => hs (by simp [h])
      have hcs : '[' ∉ cs := fun h => hs (by simp [h])
      simp only [replaceLinks, if_neg hc, ih cs hcs]

/-- A match consumes more characters than its group holds. -/
theorem matchLink_shrinks :
    ∀ (cs g r : List Char), matchLink cs = some (g, r) → g.length + r.length < cs.length
  | [], g, r, h => by simp [matchLink] at h
  | c :: cs, g, r, h => by
    simp only [matchLink] at h
    split at h
    · rename_i rest hc
      cases h
      have := matchClose_length _ _ hc
      simpa using this
    · split_ifs at h
      split at h
      · rename_i g1 r1 hl
        cases h
        have := matchLink_shrinks cs g1 r hl
        simp only [List.length_cons]
        omega
      · cases h

/-- A link that starts after the first character is a link of the tail. -/
theorem HasLink.tail (c : Char) (cs : List Char) (h : HasLink (c :: cs))
    (hhead : c = '[' → matchLink cs = none) : HasLink cs := by
  obtain ⟨before, after, group, rest, hs, hm⟩ := h
  cases before with
  | nil =>
    simp only [List.nil_append, List.cons.injEq] at hs
    obtain ⟨hc, hcs⟩ := hs
    have hnone := hhead hc
    rw [hcs, hm] at hnone
    cases hnone
  | cons b before =>
    simp only [List.cons_append, List.cons.injEq] at hs
    exact ⟨before, after, group, rest, hs.2, hm⟩

/-- A text that holds no link is copied unchanged. -/
theorem replaceLinks_no_link :
    ∀ (n : Nat) (s : List Char), ¬ HasLink s → replaceLinks n s = s := by
  intro n
  induction n with
  | zero => intro s _; rfl
  | succ n ih =>
    intro s hs
    cases s with
    | nil => rfl
    | cons c cs =>
      have htail : ¬ HasLink cs := by
        rintro ⟨before, after, group, rest, h1, h2⟩
        exact hs ⟨c :: before, after, group, rest, by simp [h1], h2⟩
      simp only [replaceLinks]
      split_ifs with hc
      · split
        · rename_i g rest hm
          exact absurd ⟨[], cs, g, rest, by simp [hc], hm⟩ hs
        · rw [ih cs htail]
      · rw [ih cs htail]

/-- Replacement never lengthens a text. -/
theorem replaceLinks_length_le :
    ∀ (n : Nat) (s : List Char), (replaceLinks n s).length ≤ s.length := by
  intro n
  induction n with
  | zero => intro s; exact le_refl _
  | succ n ih =>
    intro s
    cases s with
    | nil => exact le_refl _
    | cons c cs =>
      simp only [replaceLinks]
      split_ifs
      · split
        · rename_i g rest hm
          have h1 := matchLink_shrinks cs g rest hm
          have h2 := ih rest
          simp only [List.length_append, List.length_cons]
          omega
        · have h2 := ih cs
          simp only [List.length_cons]
          omega
      · have h2 := ih cs
        simp only [List.length_cons]
        omega

/-- Replacement shortens every text that holds a link. -/
theorem replaceLinks_length_lt :
    ∀ (n : Nat) (s : List Char), s.length ≤ n → HasLink s →
      (replaceLinks n s).length < s.length := by
  intro n
  induction n with
  | zero =>
    intro s hn hl
    have hs : s = [] := List.length_eq_zero.mp (Nat.le_zero.mp hn)
    obtain ⟨before, after, group, rest, h1, _⟩ := hl
    rw [hs] at h1
    cases before <;> simp at h1
  | succ n ih =>
    intro s hn hl
    cases s with
    | nil =>
      obtain ⟨before, after, group, rest, h1, _⟩ := hl
      cases before <;> simp at h1
    | cons c cs =>
      simp only [List.length_cons, Nat.add_le_add_iff_right] at hn
      simp only [replaceLinks]
      split_ifs with hc
      · split
        · rename_i g rest hm
          have h1 := matchLink_shrinks cs g rest hm
          have h2 := replaceLinks_length_le n rest
          simp only [List.length_append, List.length_cons]
          omega
        · rename_i hm
          have h2 := ih cs hn (HasLink.tail c cs hl (fun _ => hm))
          simp only [List.length_cons]
          omega
      · have h2 := ih cs hn (HasLink.tail c cs hl (fun h => absurd h hc))
        simp only [List.length_cons]
        omega

/-- Stripping leaves a text unchanged exactly when the text holds no link. -/
theorem strip_eq_self_iff (s : String) : strip s = s ↔ ¬ HasLink s.data := by
  constructor
  · intro h hl
    have hlt := replaceLinks_length_lt s.data.length s.data (le_refl _) hl
    have hlen : (strip s).data.length = s.data.length := by rw [h]
    simp only [strip, stripChars] at hlen
    omega
  · intro h
    unfold strip stripChars
    rw [replaceLinks_no_link _ _ h]

/-- Stripping is defined on every string (any budget of at least the length
of the string gives the same result), it is idempotent on a string exactly
when the stripped form holds no link, in particular when the stripped form has
no `[`, and it maps the example of the specification to `see here and there`. -/
theorem strip_total_idempotence_example (s : String) :
    (∀ n, s.length ≤ n → String.mk (replaceLinks n s.data) = strip s) ∧
      (strip (strip s) = strip s ↔ ¬ HasLink (strip s).data) ∧
      ('[' ∉ (strip s).data → strip (strip s) = strip s) ∧
      strip "see [here](http://x) and [there](http://y)" = "see here and there" := by
  refine ⟨?_, strip_eq_self_iff (strip s), ?_, by decide⟩
  · intro n hn
    unfold strip stripChars
    rw [replaceLinks_fuel n s.data.length s.data hn (le_refl _)]
  · intro ht
    have h : strip (strip s) = String.mk (replaceLinks (strip s).data.length (strip s).data) :=
      rfl
    rw [h, replaceLinks_no_bracket _ _ ht]

/-- C7 fails on the code at the description `[[a](b)](c)`: the only match of
the pass is `[[a](b)` with group `[a`, so stripping returns `[a](c)`, which
still holds a link although lines 99 and 106 are meant to remove the links; a
second pass returns `a`, so stripping is not idempotent. -/
theorem strip_not_idempotent :
    strip "[[a](b)](c)" = "[a](c)" ∧ strip (strip "[[a](b)](c)") = "a" ∧
      strip (strip "[[a](b)](c)") ≠ strip "[[a](b)](c)" := by
  decide

/-! ## Issue normalisation -/

theorem priorityOf_zero : priorityOf (some 0) = .critical := by
  simp [priorityOf]

theorem priorityOf_lt_half (s : ℚ) (h0 : s ≠ 0) (h : s < 1 / 2) :
    priorityOf (some s) = .medium := by
  simp only [priorityOf, toNumber, if_pos h, Option.some.injEq, if_neg h0]

theorem priorityOf_ge_half (s : ℚ) (h : 1 / 2 ≤ s) : priorityOf (some s) = .low := by
  have h0 : s ≠ 0 := by
    intro h0
    rw [h0] at h
    norm_num at h
  have h2 : ¬ s < 1 / 2 := not_lt.mpr h
  simp only [priorityOf, toNumber, if_neg h2, Option.some.injEq, if_neg h0]

/-- A record becomes an issue exactly when it has a description, and the
issue is then built from the record field by field. -/
theorem auditToIssue_ok (P : Platform) (audit : Audit) (issue : Issue)
    (h : auditToIssue P audit = .ok issue) :
    ∃ d, audit.description = some d ∧
      issue = { title := audit.title, priority := priorityOf audit.score,
                description := strip d, recommendation := recommendationOf P audit } := by
  unfold auditToIssue at h
  split at h
  · cases h
  · rename_i d hd
    cases h
    exact ⟨d, hd, rfl⟩

/-- C6: for a record that becomes an issue, with score `s` in `[0,1)`, the
priority is critical iff `s = 0`, medium iff `0 < s < 0.5`, and low iff
`0.5 ≤ s < 1`. -/
theorem priority_classification (P : Platform) (audit : Audit) (issue : Issue) (s : ℚ)
    (hscore : audit.score = some s) (h0 : 0 ≤ s) (h1 : s < 1)
    (hissue : auditToIssue P audit = .ok issue) :
    (issue.priority = .critical ↔ s = 0) ∧
      (issue.priority = .medium ↔ 0 < s ∧ s < 1 / 2) ∧
      (issue.priority = .low ↔ 1 / 2 ≤ s ∧ s < 1) := by
  have hp : issue.priority = priorityOf (some s) := by
    obtain ⟨d, _, hi⟩ := auditToIssue_ok P audit issue hissue
    rw [hi, hscore]
  have hcm : Priority.critical ≠ Priority.medium := by decide
  have hcl : Priority.critical ≠ Priority.low := by decide
  have hmc : Priority.medium ≠ Priority.critical := by decide
  have hml : Priority.medium ≠ Priority.low := by decide
  have hlc : Priority.low ≠ Priority.critical := by decide
  have hlm : Priority.low ≠ Priority.medium := by decide
  rw [hp]
  by_cases hz : s = 0
  · subst hz
    rw [priorityOf_zero]
    refine ⟨by simp, ?_, ?_⟩
    · simp [hcm]
    · simp only [hcl, false_iff, not_and]
      intro h
      norm_num at h
  · have hpos : 0 < s := lt_of_le_of_ne h0 (Ne.symm hz)
    by_cases hh : s < 1 / 2
    · rw [priorityOf_lt_half s hz hh]
      refine ⟨by simp [hmc, hz], ⟨fun _ => ⟨hpos, hh⟩, fun _ => rfl⟩, ?_⟩
      simp only [hml, false_iff, not_and]
      intro h
      exact absurd hh (not_lt.mpr h)
    · rw [priorityOf_ge_half s (not_lt.mp hh)]
      refine ⟨by simp [hlc, hz], ?_, ⟨fun _ => ⟨not_lt.mp hh, h1⟩, fun _ => rfl⟩⟩
      simp only [hlm, false_iff, not_and]
      intro _
      exact hh

/-- For every rounding, `Math.round(2400 / 1000)` is `2`. -/
theorem mathRound_2400 (P : Platform) : mathRound (P.fl (2400 / 1000)) = 2 := by
  have h2 : P.fl 2 = 2 := by
    simpa using P.fl_exact 2 0 (by norm_num) (by norm_num)
  have h39 : P.fl (39 / 16) = 39 / 16 := by
    have := P.fl_exact 39 4 (by norm_num) (by norm_num)
    norm_num at this ⊢
    exact this
  have lo : (2 : ℚ) ≤ P.fl (2400 / 1000) := by
    have := P.fl_mono 2 (2400 / 1000) (by norm_num)
    rwa [h2] at this
  have hi : P.fl (2400 / 1000) ≤ 39 / 16 := by
    have := P.fl_mono (2400 / 1000) (39 / 16) (by norm_num)
    rwa [h39] at this
  unfold mathRound
  rw [Int.floor_eq_iff]
  constructor
  · push_cast
    linarith
  · push_cast
    linarith

/-- The issue built from `unusedJsAudit`. -/
theorem unusedJsAudit_issue :
    auditToIssue nodeFragment unusedJsAudit = .ok
      { title := "Reduce unused JavaScript", priority := .medium,
        description := "Remove unused code. Learn more.",
        recommendation := "Optimizing this could save up to 2s." } := by
  have hr : recommendationOf nodeFragment unusedJsAudit
      = "Optimizing this could save up to 2s." := by
    have hs : truthySavings unusedJsAudit.details = some 2400 := by
      simp [truthySavings, unusedJsAudit]
    simp only [recommendationOf, hs, mathRound_2400]
    decide
  have hp : priorityOf unusedJsAudit.score = .medium :=
    priorityOf_lt_half _ (by norm_num) (by norm_num)
  have hd : strip "Remove unused code. [Learn more](https://web.dev/unused)."
      = "Remove unused code. Learn more." := by decide
  simp only [auditToIssue, hr, hp]
  simp only [unusedJsAudit, hd]

/-- Witness of `priority_classification` on `unusedJsAudit` (score 0.25). -/
theorem priority_classification_witness :
    (Priority.medium = .critical ↔ (1 / 4 : ℚ) = 0) ∧
      (Priority.medium = .medium ↔ (0 : ℚ) < 1 / 4 ∧ (1 / 4 : ℚ) < 1 / 2) ∧
      (Priority.medium = .low ↔ (1 / 2 : ℚ) ≤ 1 / 4 ∧ (1 / 4 : ℚ) < 1) :=
  priority_classification nodeFragment unusedJsAudit _ (1 / 4) rfl (by norm_num) (by norm_num)
    unusedJsAudit_issue

/-- C8, as stated, fails at zero savings: `overallSavingsMs: 0` is falsy, the
branch of line 96 is skipped and the recommendation is the description. -/
theorem zero_savings_recommendation :
    zeroSavingsAudit.details = some { overallSavingsMs := some 0 } ∧
      auditToIssue nodeFragment zeroSavingsAudit = .ok
        { title := "Reduce unused JavaScript", priority := .medium,
          description := "Remove unused code.",
          recommendation := "Remove unused code." } ∧
      "Remove unused code."
        ≠ savingsText nodeFragment (mathRound (nodeFragment.fl (0 / 1000))) := by
  have hr : recommendationOf nodeFragment zeroSavingsAudit = "Remove unused code." := by
    have hs : truthySavings zeroSavingsAudit.details = none := by
      simp [truthySavings, zeroSavingsAudit]
    simp only [recommendationOf, hs]
    decide
  have hp : priorityOf zeroSavingsAudit.score = .medium :=
    priorityOf_lt_half _ (by norm_num) (by norm_num)
  have hd : strip "Remove unused code." = "Remove unused code." := by decide
  refine ⟨rfl, ?_, ?_⟩
  · simp only [auditToIssue, hr, hp]
    simp only [zeroSavingsAudit, hd]
  · have h0 : mathRound (nodeFragment.fl (0 / 1000)) = 0 := by
      simp [mathRound, nodeFragment, Int.floor_eq_iff]
      norm_num
    rw [h0]
    decide

/-- For a positive number of milliseconds up to `(2^53 - 1) * 1000`, the
rounded number of seconds lies between 0 and `2^53`, for every rounding. -/
theorem mathRound_seconds_bound (P : Platform) (ms : ℚ) (hpos : 0 < ms)
    (hle : ms ≤ 9007199254740991000) :
    |mathRound (P.fl (ms / 1000))| ≤ 2 ^ 53 := by
  have e0 : P.fl 0 = 0 := by
    simpa using P.fl_exact 0 0 (by norm_num) (by norm_num)
  have emax : P.fl 9007199254740991 = 9007199254740991 := by
    simpa using P.fl_exact 9007199254740991 0 (by norm_num) (by norm_num)
  have lo : 0 ≤ P.fl (ms / 1000) := by
    have := P.fl_mono 0 (ms / 1000) (by positivity)
    rwa [e0] at this
  have hi : P.fl (ms / 1000) ≤ 9007199254740991 := by
    have := P.fl_mono (ms / 1000) 9007199254740991 (by
      rw [div_le_iff₀ (by norm_num)]
      linarith)
    rwa [emax] at this
  have h0 : 0 ≤ mathRound (P.fl (ms / 1000)) := by
    unfold mathRound
    exact Int.floor_nonneg.mpr (by linarith)
  have h1 : mathRound (P.fl (ms / 1000)) < 9007199254740992 := by
    unfold mathRound
    exact Int.floor_lt.mpr (by push_cast; linarith)
  rw [abs_of_nonneg h0]
  norm_num
  omega

/-- C8 (amended): a record with a description whose detail payload carries
`overallSavingsMs = ms` with `ms > 0` becomes an issue whose recommendation is
`Optimizing this could save up to <N>s.` with `N = Math.round(ms / 1000)`
printed as the platform prints a Number, that is in decimal digits for `ms` up
to `(2^53 - 1) * 1000`; for `ms = 2400` it is
`Optimizing this could save up to 2s.`. -/
theorem savings_recommendation (P : Platform) (audit : Audit) (details : Details) (ms : ℚ)
    (description : String) (hdetails : audit.details = some details)
    (hms : details.overallSavingsMs = some ms) (hpos : 0 < ms)
    (hdesc : audit.description = some description) :
    ∃ issue, auditToIssue P audit = .ok issue ∧
      issue.recommendation =
        "Optimizing this could save up to "
          ++ P.numberToString (mathRound (P.fl (ms / 1000))) ++ "s." ∧
      (ms ≤ 9007199254740991000 →
        issue.recommendation =
          "Optimizing this could save up to "
            ++ toString (mathRound (P.fl (ms / 1000))) ++ "s.") ∧
      (ms = 2400 → issue.recommendation = "Optimizing this could save up to 2s.") := by
  have hr : recommendationOf P audit = savingsText P (mathRound (P.fl (ms / 1000))) := by
    simp only [recommendationOf, truthySavings, hdetails, hms, if_neg (ne_of_gt hpos)]
  refine ⟨{ title := audit.title, priority := priorityOf audit.score,
             description := strip description, recommendation := recommendationOf P audit },
    by simp only [auditToIssue, hdesc], ?_, ?_, ?_⟩
  · simp only [hr, savingsText]
  · intro hle
    simp only [hr, savingsText]
    rw [P.numberToString_decimal _ (mathRound_seconds_bound P ms hpos hle)]
  · intro h
    simp only [hr, savingsText]
    rw [h, mathRound_2400, P.numberToString_decimal 2 (by norm_num)]
    decide

/-- Witness of `savings_recommendation` on `unusedJsAudit` (2400 ms). -/
theorem savings_recommendation_witness :
    ∃ issue, auditToIssue nodeFragment unusedJsAudit = .ok issue ∧
      issue.recommendation =
        "Optimizing this could save up to "
          ++ nodeFragment.numberToString (mathRound (nodeFragment.fl (2400 / 1000))) ++ "s." ∧
      ((2400 : ℚ) ≤ 9007199254740991000 →
        issue.recommendation =
          "Optimizing this could save up to "
            ++ toString (mathRound (nodeFragment.fl (2400 / 1000))) ++ "s.") ∧
      ((2400 : ℚ) = 2400 → issue.recommendation = "Optimizing this could save up to 2s.") :=
  savings_recommendation nodeFragment unusedJsAudit { overallSavingsMs := some 2400 } 2400
    "Remove unused code. [Learn more](https://web.dev/unused)." rfl rfl (by norm_num) rfl

/-! ## Issue extraction -/

theorem keepAudit_iff (audit : Audit) :
    keepAudit audit = true ↔ audit.score ≠ some 1 ∧ audit.score ≠ none := by
  simp [keepAudit]

/-- When the filter returns, every looked-up record was defined and the kept
records are those with a score other than `1` and `null`, in order. -/
theorem filterAudits_ok :
    ∀ (l : List (Option Audit)) (kept : List Audit), filterAudits l = .ok kept →
      ∃ records : List Audit, l = records.map some ∧ kept = records.filter keepAudit
  | [], kept, h => by
    simp only [filterAudits] at h
    cases h
    exact ⟨[], rfl, rfl⟩
  | none :: _, kept, h => by
    simp only [filterAudits] at h
    cases h
  | some audit :: rest, kept, h => by
    simp only [filterAudits] at h
    split at h
    · cases h
    · rename_i kept1 hk
      cases h
      obtain ⟨records, hl, hkept⟩ := filterAudits_ok rest kept1 hk
      refine ⟨audit :: records, by simp [hl], ?_⟩
      by_cases hkeep : keepAudit audit = true
      · simp [hkeep, hkept]
      · simp [hkeep, hkept]

/-- When the map returns, the issues are the normalised kept records, one for
one and in order. -/
theorem mapIssues_ok (P : Platform) :
    ∀ (kept : List Audit) (issues : List Issue), mapIssues P kept = .ok issues →
      List.Forall₂ (fun audit issue => auditToIssue P audit = .ok issue) kept issues
  | [], issues, h => by
    simp only [mapIssues] at h
    cases h
    exact List.Forall₂.nil
  | audit :: rest, issues, h => by
    simp only [mapIssues] at h
    split at h
    · cases h
    · rename_i issue hi
      split at h
      · cases h
      · rename_i issues1 hrest
        cases h
        exact List.Forall₂.cons hi (mapIssues_ok P rest issues1 hrest)

theorem forall₂_titles (P : Platform) :
    ∀ (kept : List Audit) (issues : List Issue),
      List.Forall₂ (fun audit issue => auditToIssue P audit = .ok issue) kept issues →
      issues.map Issue.title = kept.map Audit.title ∧ issues.length = kept.length
  | _, _, List.Forall₂.nil => ⟨rfl, rfl⟩
  | _, _, List.Forall₂.cons hi hrest => by
    obtain ⟨d, _, hissue⟩ := auditToIssue_ok P _ _ hi
    obtain ⟨ht, hl⟩ := forall₂_titles P _ _ hrest
    constructor
    · simp only [List.map_cons, ht, hissue]
    · simp only [List.length_cons, hl]

/-- What `mapAuditsToIssues` returns, when it returns. -/
theorem mapAuditsToIssues_ok (P : Platform) (report : Lhr) (auditRefs : List AuditRef)
    (issues : List Issue) (h : mapAuditsToIssues P report auditRefs = .ok issues) :
    ∃ records : List Audit,
      auditRefs.map (fun ref => report.audits ref.id) = records.map some ∧
      List.Forall₂ (fun audit issue => auditToIssue P audit = .ok issue)
        (records.filter keepAudit) issues ∧
      issues.map Issue.title = (records.filter keepAudit).map Audit.title ∧
      issues.length = (records.filter keepAudit).length := by
  unfold mapAuditsToIssues at h
  split at h
  · cases h
  · rename_i kept hk
    obtain ⟨records, hl, hkept⟩ := filterAudits_ok _ _ hk
    subst hkept
    have hf := mapIssues_ok P _ _ h
    exact ⟨records, hl, hf, forall₂_titles P _ _ hf⟩

/-- The helper returns whenever every reference resolves to a record and every
record has a description. -/
theorem mapAuditsToIssues_returns (P : Platform) (report : Lhr) :
    ∀ (auditRefs : List AuditRef),
      (∀ ref ∈ auditRefs, ∃ audit d, report.audits ref.id = some audit ∧
        audit.description = some d) →
      ∃ issues, mapAuditsToIssues P report auditRefs = .ok issues := by
  have hmap : ∀ kept : List Audit, (∀ a ∈ kept, ∃ d, a.description = some d) →
      ∃ issues, mapIssues P kept = .ok issues := by
    intro kept
    induction kept with
    | nil => intro _; exact ⟨[], rfl⟩
    | cons a rest ih =>
      intro h
      obtain ⟨d, hd⟩ := h a (by simp)
      obtain ⟨issues, hi⟩ := ih (fun b hb => h b (by simp [hb]))
      exact ⟨{ title := a.title, priority := priorityOf a.score, description := strip d,
               recommendation := recommendationOf P a } :: issues,
        by simp only [mapIssues, auditToIssue, hd, hi]⟩
  have hfilter : ∀ l : List (Option Audit),
      (∀ o ∈ l, ∃ a d, o = some a ∧ a.description = some d) →
      ∃ kept, filterAudits l = .ok kept ∧ ∀ a ∈ kept, ∃ d, a.description = some d := by
    intro l
    induction l with
    | nil => intro _; exact ⟨[], rfl, by simp⟩
    | cons o rest ih =>
      intro h
      obtain ⟨a, d, ho, hd⟩ := h o (by simp)
      obtain ⟨kept, hk, hall⟩ := ih (fun b hb => h b (by simp [hb]))
      subst ho
      refine ⟨if keepAudit a = true then a :: kept else kept,
        by simp only [filterAudits, hk], ?_⟩
      intro b hb
      split_ifs at hb
      · rcases List.mem_cons.mp hb with rfl | hb
        · exact ⟨d, hd⟩
        · exact hall b hb
      · exact hall b hb
  intro auditRefs h
  obtain ⟨kept, hk, hall⟩ := hfilter (auditRefs.map (fun ref => report.audits ref.id)) (by
    intro o ho
    obtain ⟨ref, hr, rfl⟩ := List.mem_map.mp ho
    exact h ref hr)
  obtain ⟨issues, hi⟩ := hmap kept hall
  exact ⟨issues, by simp only [mapAuditsToIssues, hk, hi]⟩

/-- What `runLighthouseScan` returns, when it returns. -/
theorem runLighthouseScan_ok (P : Platform) (report : Lhr) (results : LighthouseResults)
    (h : runLighthouseScan P (.ok report) = .ok results) :
    (mapAuditsToIssues P report report.categories.performance.auditRefs
        = .ok results.performance.issues ∧
      mapAuditsToIssues P report report.categories.seo.auditRefs
        = .ok results.seo.issues ∧
      mapAuditsToIssues P report report.categories.accessibility.auditRefs
        = .ok results.accessibility.issues) ∧
    results.performance.score = categoryScore P report.categories.performance ∧
    results.seo.score = categoryScore P report.categories.seo ∧
    results.accessibility.score = categoryScore P report.categories.accessibility := by
  simp only [runLighthouseScan] at h
  split at h
  · cases h
  · rename_i i1 h1
    split at h
    · cases h
    · rename_i i2 h2
      split at h
      · cases h
      · rename_i i3 h3
        cases h
        exact ⟨⟨h1, h2, h3⟩, rfl, rfl, rfl⟩

/-- When the scan returns, each category's issue list has exactly one
issue for each referenced record whose score is neither `1` nor `null`, in the
order of the category's audit references and with that record's title; its
length is the number of such records. -/
theorem issues_follow_audit_refs (P : Platform) (report : Lhr) (results : LighthouseResults)
    (h : runLighthouseScan P (.ok report) = .ok results) :
    ∀ pair ∈
        [(report.categories.performance.auditRefs, results.performance.issues),
         (report.categories.seo.auditRefs, results.seo.issues),
         (report.categories.accessibility.auditRefs, results.accessibility.issues)],
      ∃ records : List Audit,
        pair.1.map (fun ref => report.audits ref.id) = records.map some ∧
        List.Forall₂ (fun audit issue => auditToIssue P audit = .ok issue)
          (records.filter (fun a => decide (a.score ≠ some 1 ∧ a.score ≠ none))) pair.2 ∧
        pair.2.map Issue.title =
          (records.filter (fun a => decide (a.score ≠ some 1 ∧ a.score ≠ none))).map
            Audit.title ∧
        pair.2.length =
          (records.filter (fun a => decide (a.score ≠ some 1 ∧ a.score ≠ none))).length := by
  have hk : (fun a : Audit => decide (a.score ≠ some 1 ∧ a.score ≠ none)) = keepAudit := by
    funext a
    simp [keepAudit]
  rw [hk]
  obtain ⟨⟨h1, h2, h3⟩, _⟩ := runLighthouseScan_ok P report results h
  intro pair hp
  simp only [List.mem_cons, List.mem_singleton, List.not_mem_nil, or_false] at hp
  rcases hp with rfl | rfl | rfl
  · exact mapAuditsToIssues_ok P report _ _ h1
  · exact mapAuditsToIssues_ok P report _ _ h2
  · exact mapAuditsToIssues_ok P report _ _ h3

/-- What the scan of `demoLhr` returns. -/
theorem demoLhr_results : runLighthouseScan nodeFragment (.ok demoLhr) = .ok demoResults := by
  have hperf : mapAuditsToIssues nodeFragment demoLhr demoLhr.categories.performance.auditRefs
      = .ok demoResults.performance.issues := by
    have hl : demoLhr.categories.performance.auditRefs.map (fun ref => demoLhr.audits ref.id)
        = [some viewportAudit, some unusedJsAudit] := by
      simp [demoLhr]
    have hv : keepAudit viewportAudit = false := by simp [keepAudit, viewportAudit]
    have hu : keepAudit unusedJsAudit = true := by
      simp [keepAudit, unusedJsAudit]
    simp only [mapAuditsToIssues, hl, filterAudits, hv, hu, mapIssues, unusedJsAudit_issue]
    rfl
  have hnil : mapAuditsToIssues nodeFragment demoLhr [] = .ok [] := rfl
  have hs1 : categoryScore nodeFragment demoLhr.categories.performance = 87 := by
    simp [categoryScore, demoLhr, nodeFragment, toNumber, mathRound, Int.floor_eq_iff]
    norm_num
  have hs2 : categoryScore nodeFragment demoLhr.categories.seo = 100 := by
    simp [categoryScore, demoLhr, nodeFragment, toNumber, mathRound, Int.floor_eq_iff]
    norm_num
  have hs3 : categoryScore nodeFragment demoLhr.categories.accessibility = 50 := by
    simp [categoryScore, demoLhr, nodeFragment, toNumber, mathRound, Int.floor_eq_iff]
    norm_num
  have hseo : demoLhr.categories.seo.auditRefs = [] := rfl
  have ha11y : demoLhr.categories.accessibility.auditRefs = [] := rfl
  simp only [runLighthouseScan, hperf, hseo, ha11y, hnil, hs1, hs2, hs3]
  rfl

/-- Instance of `issues_follow_audit_refs` on the performance category of
`demoLhr`: two references, one kept record, one issue. -/
theorem issues_follow_audit_refs_witness :
    ∃ records : List Audit,
      demoLhr.categories.performance.auditRefs.map (fun ref => demoLhr.audits ref.id)
        = records.map some ∧
      List.Forall₂ (fun audit issue => auditToIssue nodeFragment audit = .ok issue)
        (records.filter (fun a => decide (a.score ≠ some 1 ∧ a.score ≠ none)))
        demoResults.performance.issues ∧
      demoResults.performance.issues.map Issue.title =
        (records.filter (fun a => decide (a.score ≠ some 1 ∧ a.score ≠ none))).map
          Audit.title ∧
      demoResults.performance.issues.length =
        (records.filter (fun a => decide (a.score ≠ some 1 ∧ a.score ≠ none))).length :=
  issues_follow_audit_refs nodeFragment demoLhr demoResults demoLhr_results
    (demoLhr.categories.performance.auditRefs, demoResults.performance.issues)
    (List.mem_cons_self _ _)

/-- C9 fails on the code at an engine report whose seo category references
one record with score 0.5 and no description: the record has a score that is
neither `1` nor `null` and is kept by the filter of line 88, but line 106
throws on it, so the category gets no issue list at all and the scan rejects,
where the claim has a list of exactly one issue. -/
theorem kept_record_without_issue :
    (undescribedLhr.categories.seo.auditRefs.map (fun ref => undescribedLhr.audits ref.id)
          = [some undescribedAudit] ∧
        undescribedAudit.score = some (1 / 2) ∧ keepAudit undescribedAudit = true) ∧
      filterAudits
          (undescribedLhr.categories.seo.auditRefs.map
            (fun ref => undescribedLhr.audits ref.id))
        = .ok [undescribedAudit] ∧
      mapAuditsToIssues nodeFragment undescribedLhr undescribedLhr.categories.seo.auditRefs
        = .error .typeError ∧
      runLighthouseScan nodeFragment (.ok undescribedLhr) = .error .typeError := by
  have hk : keepAudit undescribedAudit = true := by
    simp [keepAudit, undescribedAudit]
  have hl : undescribedLhr.categories.seo.auditRefs.map (fun ref => undescribedLhr.audits ref.id)
      = [some undescribedAudit] := by
    simp [undescribedLhr]
  have hf : filterAudits
      (undescribedLhr.categories.seo.auditRefs.map (fun ref => undescribedLhr.audits ref.id))
      = .ok [undescribedAudit] := by
    simp only [hl, filterAudits, hk, if_true]
  have hi : auditToIssue nodeFragment undescribedAudit = .error .typeError := rfl
  have hseo : mapAuditsToIssues nodeFragment undescribedLhr
      undescribedLhr.categories.seo.auditRefs = .error .typeError := by
    simp only [mapAuditsToIssues, hf, mapIssues, hi]
  have hperf : undescribedLhr.categories.performance.auditRefs = [] := rfl
  have hnil : mapAuditsToIssues nodeFragment undescribedLhr [] = .ok [] := rfl
  refine ⟨⟨hl, rfl, hk⟩, hf, hseo, ?_⟩
  simp only [runLighthouseScan, hperf, hnil, hseo]

/-! ## Security scan -/

theorem not_truthy_iff (v : Option String) (h : v ≠ some "") :
    (!truthy v) = true ↔ v = none := by
  cases v with
  | none => simp [truthy]
  | some s =>
    have hs : s ≠ "" := fun e => h (by rw [e])
    simp [truthy, hs]

theorem truthy_iff (v : Option String) : truthy v = true ↔ ∃ s, v = some s ∧ s ≠ "" := by
  cases v with
  | none => simp [truthy]
  | some s => simp [truthy]

theorem msPerDay_eq : msPerDay = 86400000 := by
  norm_num [msPerDay]

/-- A certificate expiring 30 days or more from now changes nothing. -/
theorem checkCertificate_far (P : Platform) (now : Int) (res : IncomingMessage) (st : Scan)
    (cert : PeerCertificate) (validTo : String) (expiryDate : Int)
    (hcert : res.peerCertificate = some cert) (hvalid : cert.valid_to = some validTo)
    (hne : validTo ≠ "") (hdate : P.dateParse validTo = some expiryDate)
    (hfar : 30 ≤ ((expiryDate - now : Int) : ℚ) / msPerDay) :
    checkCertificate P now res st = st := by
  have h0 : ¬ ((expiryDate - now : Int) : ℚ) / msPerDay < 0 := by
    intro h
    linarith
  have h30 : ¬ ((expiryDate - now : Int) : ℚ) / msPerDay < 30 := not_lt.mpr hfar
  have hu : usableValidTo res.peerCertificate = some validTo := by
    simp [usableValidTo, hcert, hvalid, truthy, hne]
  simp only [checkCertificate, hu, hdate, if_neg h0, if_neg h30]

/-- An expired certificate appends the expired issue and zeroes the score. -/
theorem checkCertificate_expired (P : Platform) (now : Int) (res : IncomingMessage) (st : Scan)
    (cert : PeerCertificate) (validTo : String) (expiryDate : Int)
    (hcert : res.peerCertificate = some cert) (hvalid : cert.valid_to = some validTo)
    (hne : validTo ≠ "") (hdate : P.dateParse validTo = some expiryDate)
    (hpast : expiryDate < now) :
    checkCertificate P now res st = { issues := st.issues ++ [expiredIssue], score := 0 } := by
  have h0 : ((expiryDate - now : Int) : ℚ) / msPerDay < 0 := by
    rw [msPerDay_eq]
    apply div_neg_of_neg_of_pos
    · have : expiryDate - now < 0 := by omega
      exact_mod_cast this
    · norm_num
  have hu : usableValidTo res.peerCertificate = some validTo := by
    simp [usableValidTo, hcert, hvalid, truthy, hne]
  simp only [checkCertificate, hu, hdate, if_pos h0]

theorem checkHsts_eq (res : IncomingMessage) (st : Scan)
    (h : res.headers "strict-transport-security" ≠ some "") :
    checkHsts res st =
      { issues := st.issues
          ++ (if res.headers "strict-transport-security" = none then [hstsIssue] else []),
        score := st.score
          - (if res.headers "strict-transport-security" = none then 25 else 0) } := by
  unfold checkHsts
  by_cases a : res.headers "strict-transport-security" = none
  · rw [if_pos ((not_truthy_iff _ h).2 a), if_pos a, if_pos a]
  · rw [if_neg (fun t => a ((not_truthy_iff _ h).1 t)), if_neg a, if_neg a]
    simp

theorem checkCsp_eq (res : IncomingMessage) (st : Scan)
    (h : res.headers "content-security-policy" ≠ some "") :
    checkCsp res st =
      { issues := st.issues
          ++ (if res.headers "content-security-policy" = none then [cspIssue] else []),
        score := st.score
          - (if res.headers "content-security-policy" = none then 20 else 0) } := by
  unfold checkCsp
  by_cases a : res.headers "content-security-policy" = none
  · rw [if_pos ((not_truthy_iff _ h).2 a), if_pos a, if_pos a]
  · rw [if_neg (fun t => a ((not_truthy_iff _ h).1 t)), if_neg a, if_neg a]
    simp

theorem checkFrameOptions_eq (res : IncomingMessage) (st : Scan)
    (h : res.headers "x-frame-options" ≠ some "") :
    checkFrameOptions res st =
      { issues := st.issues
          ++ (if res.headers "x-frame-options" = none then [frameOptionsIssue] else []),
        score := st.score
          - (if res.headers "x-frame-options" = none then 20 else 0) } := by
  unfold checkFrameOptions
  by_cases a : res.headers "x-frame-options" = none
  · rw [if_pos ((not_truthy_iff _ h).2 a), if_pos a, if_pos a]
  · rw [if_neg (fun t => a ((not_truthy_iff _ h).1 t)), if_neg a, if_neg a]
    simp

/-- The header checks, when no header is present with an empty value. -/
theorem headerChecks_eq (res : IncomingMessage)
    (hsts : res.headers "strict-transport-security" ≠ some "")
    (hcsp : res.headers "content-security-policy" ≠ some "")
    (hxfo : res.headers "x-frame-options" ≠ some "") :
    headerChecks res =
      { issues :=
          (if res.headers "strict-transport-security" = none then [hstsIssue] else [])
            ++ (if res.headers "content-security-policy" = none then [cspIssue] else [])
            ++ (if res.headers "x-frame-options" = none then [frameOptionsIssue] else []),
        score :=
          100 - (if res.headers "strict-transport-security" = none then 25 else 0)
            - (if res.headers "content-security-policy" = none then 20 else 0)
            - (if res.headers "x-frame-options" = none then 20 else 0) } := by
  unfold headerChecks
  rw [checkHsts_eq res _ hsts, checkCsp_eq res _ hcsp, checkFrameOptions_eq res _ hxfo]
  simp only [List.nil_append]

/-- The header checks never raise the score above 100 nor lower it below 35. -/
theorem headerChecks_score (res : IncomingMessage) :
    35 ≤ (headerChecks res).score ∧ (headerChecks res).score ≤ 100 := by
  unfold headerChecks checkFrameOptions checkCsp checkHsts
  split_ifs <;> simp

/-- C1: with a certificate expiring 30 days or more from now and each of the
three headers absent or present with a non-empty value, the scan returns score
`100 - 25*[HSTS absent] - 20*[CSP absent] - 20*[X-Frame-Options absent]` and
one issue per absent header, in the order HSTS (critical), CSP (medium),
X-Frame-Options (medium); with all three absent, score 35 and three issues. -/
theorem header_deductions (P : Platform) (url : String) (now : Int) (res : IncomingMessage)
    (parsedUrl : ParsedUrl) (cert : PeerCertificate) (validTo : String) (expiryDate : Int)
    (hurl : P.urlParse url = some parsedUrl)
    (hcert : res.peerCertificate = some cert) (hvalid : cert.valid_to = some validTo)
    (hne : validTo ≠ "") (hdate : P.dateParse validTo = some expiryDate)
    (hfar : 30 ≤ ((expiryDate - now : Int) : ℚ) / msPerDay)
    (hsts : res.headers "strict-transport-security" ≠ some "")
    (hcsp : res.headers "content-security-policy" ≠ some "")
    (hxfo : res.headers "x-frame-options" ≠ some "") :
    runSecurityScan P url now (.response res) = .ok
        { title := "Security", icon := "shield",
          score :=
            100 - (if res.headers "strict-transport-security" = none then 25 else 0)
              - (if res.headers "content-security-policy" = none then 20 else 0)
              - (if res.headers "x-frame-options" = none then 20 else 0),
          issues :=
            (if res.headers "strict-transport-security" = none then [hstsIssue] else [])
              ++ (if res.headers "content-security-policy" = none then [cspIssue] else [])
              ++ (if res.headers "x-frame-options" = none then [frameOptionsIssue] else []) } ∧
      (hstsIssue.priority = .critical ∧ cspIssue.priority = .medium ∧
        frameOptionsIssue.priority = .medium) ∧
      (res.headers "strict-transport-security" = none →
        res.headers "content-security-policy" = none →
        res.headers "x-frame-options" = none →
        runSecurityScan P url now (.response res) = .ok
          { title := "Security", icon := "shield", score := 35,
            issues := [hstsIssue, cspIssue, frameOptionsIssue] }) := by
  have hscan : scanResponse P now res = headerChecks res :=
    checkCertificate_far P now res _ cert validTo expiryDate hcert hvalid hne hdate hfar
  have hh := headerChecks_eq res hsts hcsp hxfo
  have hrange := headerChecks_score res
  have hmax : max 0 (headerChecks res).score = (headerChecks res).score :=
    max_eq_right (by linarith [hrange.1])
  refine ⟨?_, ⟨rfl, rfl, rfl⟩, ?_⟩
  · simp only [runSecurityScan, hurl, onResponse, hscan, hmax]
    rw [hh]
  · intro a b c
    simp only [runSecurityScan, hurl, onResponse, hscan, hmax]
    rw [hh]
    simp [a, b, c]

/-- Witness of `header_deductions`: no header, certificate valid until 2030,
scanned in November 2026. -/
theorem header_deductions_witness :
    runSecurityScan nodeFragment "https://example.com/" november2026 (.response bareResponse)
      = .ok { title := "Security", icon := "shield", score := 35,
              issues := [hstsIssue, cspIssue, frameOptionsIssue] } :=
  (header_deductions nodeFragment "https://example.com/" november2026 bareResponse
    { hostname := "example.com", port := "", pathname := "/" }
    { valid_to := some "Jan  1 00:00:00 2030 GMT" } "Jan  1 00:00:00 2030 GMT" 1893456000000
    rfl rfl rfl (by decide) rfl (by norm_num [november2026, msPerDay])
    (by decide) (by decide) (by decide)).2.2 rfl rfl rfl

/-- C2, as stated, fails when the three headers are present with an empty
value: an empty string is falsy, so each header is reported as missing and the
issue list of the expired certificate has four issues, not one. -/
theorem expired_with_empty_headers :
    (∀ name, (emptyValuedResponse.headers name).isSome = true) ∧
      runSecurityScan nodeFragment "https://example.com/" february2030
          (.response emptyValuedResponse)
        = .ok { title := "Security", icon := "shield", score := 0,
                issues := [hstsIssue, cspIssue, frameOptionsIssue, expiredIssue] } := by
  refine ⟨fun _ => rfl, ?_⟩
  have hc : scanResponse nodeFragment february2030 emptyValuedResponse
      = { issues := (headerChecks emptyValuedResponse).issues ++ [expiredIssue], score := 0 } :=
    checkCertificate_expired nodeFragment february2030 emptyValuedResponse _
      { valid_to := some "Jan  1 00:00:00 2030 GMT" } "Jan  1 00:00:00 2030 GMT" 1893456000000
      rfl rfl (by decide) rfl (by decide)
  have hh : headerChecks emptyValuedResponse
      = { issues := [hstsIssue, cspIssue, frameOptionsIssue], score := 35 } := by
    decide
  have hu : nodeFragment.urlParse "https://example.com/"
      = some { hostname := "example.com", port := "", pathname := "/" } := rfl
  simp only [runSecurityScan, hu, onResponse, hc, hh]
  rfl

/-- C2 (amended): with a certificate whose expiry is in the past the scan
returns score 0 whatever the headers, and its issue list is the header issues
followed by the critical `SSL Certificate Expired` issue; when the three
headers are present with non-empty values that issue is the only one. -/
theorem expired_certificate (P : Platform) (url : String) (now : Int) (res : IncomingMessage)
    (parsedUrl : ParsedUrl) (cert : PeerCertificate) (validTo : String) (expiryDate : Int)
    (hurl : P.urlParse url = some parsedUrl)
    (hcert : res.peerCertificate = some cert) (hvalid : cert.valid_to = some validTo)
    (hne : validTo ≠ "") (hdate : P.dateParse validTo = some expiryDate)
    (hpast : expiryDate < now) :
    runSecurityScan P url now (.response res) = .ok
        { title := "Security", icon := "shield", score := 0,
          issues := (headerChecks res).issues ++ [expiredIssue] } ∧
      (expiredIssue.title = "SSL Certificate Expired" ∧ expiredIssue.priority = .critical) ∧
      ((∃ v, res.headers "strict-transport-security" = some v ∧ v ≠ "") →
        (∃ v, res.headers "content-security-policy" = some v ∧ v ≠ "") →
        (∃ v, res.headers "x-frame-options" = some v ∧ v ≠ "") →
        runSecurityScan P url now (.response res) = .ok
          { title := "Security", icon := "shield", score := 0, issues := [expiredIssue] }) := by
  have hc : scanResponse P now res
      = { issues := (headerChecks res).issues ++ [expiredIssue], score := 0 } :=
    checkCertificate_expired P now res _ cert validTo expiryDate hcert hvalid hne hdate hpast
  have hrun : runSecurityScan P url now (.response res) = .ok
      { title := "Security", icon := "shield", score := 0,
        issues := (headerChecks res).issues ++ [expiredIssue] } := by
    simp only [runSecurityScan, hurl, onResponse, hc]
    rfl
  refine ⟨hrun, ⟨rfl, rfl⟩, ?_⟩
  intro a b c
  have ta := (truthy_iff _).2 a
  have tb := (truthy_iff _).2 b
  have tc := (truthy_iff _).2 c
  have hnil : (headerChecks res).issues = [] := by
    simp [headerChecks, checkFrameOptions, checkCsp, checkHsts, ta, tb, tc]
  rw [hrun, hnil]
  rfl

/-- Witness of `expired_certificate`: the three headers set, certificate
expired a month before the scan. -/
theorem expired_certificate_witness :
    runSecurityScan nodeFragment "https://example.com/" february2030
        (.response hardenedResponse)
      = .ok { title := "Security", icon := "shield", score := 0, issues := [expiredIssue] } :=
  (expired_certificate nodeFragment "https://example.com/" february2030 hardenedResponse
    { hostname := "example.com", port := "", pathname := "/" }
    { valid_to := some "Jan  1 00:00:00 2030 GMT" } "Jan  1 00:00:00 2030 GMT" 1893456000000
    rfl rfl rfl (by decide) rfl (by decide)).2.2
    ⟨"max-age=31536000", rfl, by decide⟩ ⟨"default-src https:", rfl, by decide⟩
    ⟨"DENY", rfl, by decide⟩

/-- C4, as stated, fails: `http` passes the validation of line 23, the `URL`
constructor throws on it inside the promise executor, and the promise rejects
whatever the outcome of the request. -/
theorem unparseable_url_rejects :
    ("http" ≠ "" ∧ startsWith "http" "http" = true) ∧
      nodeFragment.urlParse "http" = none ∧
      runSecurityScan nodeFragment "http" november2026 (.response bareResponse)
        = .error .invalidUrl ∧
      runSecurityScan nodeFragment "http" november2026 (.error "getaddrinfo ENOTFOUND")
        = .error .invalidUrl := by
  decide

/-- C4 (amended): for every url the `URL` constructor parses, the scan
resolves with a category named `Security` whenever the request ends with a
response or with a transport error; it never rejects on either. -/
theorem scan_resolves_when_url_parses (P : Platform) (url : String) (now : Int)
    (parsedUrl : ParsedUrl) (hurl : P.urlParse url = some parsedUrl) :
    (∀ res, ∃ category, runSecurityScan P url now (.response res) = .ok category ∧
        category.title = "Security" ∧ category.icon = "shield") ∧
      (∀ message, ∃ category, runSecurityScan P url now (.error message) = .ok category ∧
        category.title = "Security" ∧ category.icon = "shield") := by
  constructor
  · intro res
    exact ⟨onResponse P now res, by simp only [runSecurityScan, hurl], rfl, rfl⟩
  · intro message
    exact ⟨onError parsedUrl, by simp only [runSecurityScan, hurl], rfl, rfl⟩

/-- Witness of `scan_resolves_when_url_parses` on a refused connection. -/
theorem scan_resolves_when_url_parses_witness :
    ∃ category,
      runSecurityScan nodeFragment "https://example.com/" november2026
          (.error "connect ECONNREFUSED") = .ok category ∧
      category.title = "Security" ∧ category.icon = "shield" :=
  (scan_resolves_when_url_parses nodeFragment "https://example.com/" november2026
    { hostname := "example.com", port := "", pathname := "/" } rfl).2 "connect ECONNREFUSED"

/-- C5: for a parseable url whose request fails with a transport error, the
scan resolves with title `Security`, icon `shield`, score 0 and exactly one
issue; that issue is critical, its description names the hostname of the url,
and it is none of the header or certificate issues. -/
theorem transport_error_category (P : Platform) (url : String) (now : Int) (message : String)
    (parsedUrl : ParsedUrl) (hurl : P.urlParse url = some parsedUrl) :
    ∃ issue : Issue,
      runSecurityScan P url now (.error message) = .ok
        { title := "Security", icon := "shield", score := 0, issues := [issue] } ∧
      issue.priority = .critical ∧
      issue.description =
        "Failed to perform security scan. Could not connect to the host at "
          ++ parsedUrl.hostname
          ++ ". This could be a firewall issue or the server is down." ∧
      issue.title ∉
        [hstsIssue.title, cspIssue.title, frameOptionsIssue.title, expiredIssue.title,
         (expiringIssue 0).title, invalidIssue.title] := by
  refine ⟨connectIssue parsedUrl.hostname, ?_, rfl, rfl, ?_⟩
  · simp only [runSecurityScan, hurl, onError]
  · have ht : (connectIssue parsedUrl.hostname).title = "Could Not Connect for Security Scan" :=
      rfl
    rw [ht]
    decide

/-- Witness of `transport_error_category` on an unknown host. -/
theorem transport_error_category_witness :
    ∃ issue : Issue,
      runSecurityScan nodeFragment "https://example.com/" november2026
          (.error "getaddrinfo ENOTFOUND example.com") = .ok
        { title := "Security", icon := "shield", score := 0, issues := [issue] } ∧
      issue.priority = .critical ∧
      issue.description =
        "Failed to perform security scan. Could not connect to the host at "
          ++ "example.com"
          ++ ". This could be a firewall issue or the server is down." ∧
      issue.title ∉
        [hstsIssue.title, cspIssue.title, frameOptionsIssue.title, expiredIssue.title,
         (expiringIssue 0).title, invalidIssue.title] :=
  transport_error_category nodeFragment "https://example.com/" november2026
    "getaddrinfo ENOTFOUND example.com"
    { hostname := "example.com", port := "", pathname := "/" } rfl

/-! ## Score range -/

theorem mathRound_range (x : ℚ) (h0 : 0 ≤ x) (h1 : x ≤ 100) :
    0 ≤ mathRound x ∧ mathRound x ≤ 100 := by
  unfold mathRound
  constructor
  · exact Int.floor_nonneg.mpr (by linarith)
  · have : ⌊x + 1 / 2⌋ < 101 := Int.floor_lt.mpr (by push_cast; linarith)
    omega

/-- A category score in `[0,1]` is reported as an integer in `[0,100]`, for
every rounding of the product. -/
theorem categoryScore_range (P : Platform) (c : LhCategory) (q : ℚ)
    (hq : c.score = some q) (h0 : 0 ≤ q) (h1 : q ≤ 1) :
    0 ≤ categoryScore P c ∧ categoryScore P c ≤ 100 := by
  have e0 : P.fl 0 = 0 := by
    simpa using P.fl_exact 0 0 (by norm_num) (by norm_num)
  have e100 : P.fl 100 = 100 := by
    simpa using P.fl_exact 100 0 (by norm_num) (by norm_num)
  have lo : 0 ≤ P.fl (q * 100) := by
    have := P.fl_mono 0 (q * 100) (by linarith)
    rwa [e0] at this
  have hi : P.fl (q * 100) ≤ 100 := by
    have := P.fl_mono (q * 100) 100 (by linarith)
    rwa [e100] at this
  simp only [categoryScore, hq, toNumber]
  exact mathRound_range _ lo hi

/-- The certificate check never raises the score. -/
theorem checkCertificate_score_le (P : Platform) (now : Int) (res : IncomingMessage)
    (st : Scan) (h : st.score ≤ 100) : (checkCertificate P now res st).score ≤ 100 := by
  unfold checkCertificate
  split
  · split
    · exact h
    · simp only
      split_ifs
      · simp
      · simp only
        omega
      · exact h
  · simp

/-- The score the response callback resolves with lies in `[0,100]`. -/
theorem onResponse_score_range (P : Platform) (now : Int) (res : IncomingMessage) :
    0 ≤ (onResponse P now res).score ∧ (onResponse P now res).score ≤ 100 := by
  have h := checkCertificate_score_le P now res (headerChecks res) (headerChecks_score res).2
  simp only [onResponse, scanResponse]
  exact ⟨le_max_left _ _, max_le (by norm_num) h⟩

/-- The score of a resolved security scan lies in `[0,100]`. -/
theorem runSecurityScan_score_range (P : Platform) (url : String) (now : Int)
    (outcome : RequestOutcome) (category : Category)
    (h : runSecurityScan P url now outcome = .ok category) :
    0 ≤ category.score ∧ category.score ≤ 100 := by
  unfold runSecurityScan at h
  split at h
  · cases h
  · split at h
    · cases h
      exact onResponse_score_range P now _
    · cases h
      simp [onError]
    · cases h

theorem runLighthouseScan_engine (P : Platform) (engine : Except JsError Lhr)
    (results : LighthouseResults) (h : runLighthouseScan P engine = .ok results) :
    ∃ report, engine = .ok report ∧ runLighthouseScan P (.ok report) = .ok results := by
  cases engine with
  | error e => simp [runLighthouseScan] at h
  | ok report => exact ⟨report, rfl, h⟩

/-- A report is sent only for a string url, after both scans returned, and it
is assembled from their results. -/
theorem auditHandler_report (W : World) (url : JsValue) (response : HttpResponse)
    (report : Report) (hresp : (auditHandler W url).response = some response)
    (hbody : response.body = .report report) :
    ∃ s results security, url = .string s ∧
      runLighthouseScan W.platform W.engine = .ok results ∧
      runSecurityScan W.platform s W.now W.request = .ok security ∧
      report = { security := security, performance := results.performance,
                 seo := results.seo, accessibility := results.accessibility } := by
  unfold auditHandler at hresp
  split_ifs at hresp with ht
  · simp only [Option.some.injEq] at hresp
    rw [← hresp] at hbody
    simp [badRequest] at hbody
  · split at hresp
    · rename_i s
      split_ifs at hresp with hs
      · simp only [Option.some.injEq] at hresp
        rw [← hresp] at hbody
        simp [badRequest] at hbody
      · split at hresp
        · simp only [Option.some.injEq] at hresp
          rw [← hresp] at hbody
          simp [serverError] at hbody
        · split at hresp
          · rename_i results security hl hsec
            simp only [Option.some.injEq] at hresp
            rw [← hresp] at hbody
            simp only [Body.report.injEq] at hbody
            exact ⟨s, results, security, rfl, hl, hsec, hbody.symm⟩
          · simp only [Option.some.injEq] at hresp
            rw [← hresp] at hbody
            simp [serverError] at hbody
    · cases hresp

/-- C3: when the engine's three category scores lie in `[0,1]`, whatever the
outcome of the TLS request, each of the four category scores of a report the
endpoint sends is an integer between 0 and 100. -/
theorem report_scores_in_range (W : World) (url : JsValue) (response : HttpResponse)
    (report : Report)
    (hunit : ∀ lhr, W.engine = .ok lhr →
      ∀ c ∈ [lhr.categories.performance, lhr.categories.seo, lhr.categories.accessibility],
        ∃ q, c.score = some q ∧ 0 ≤ q ∧ q ≤ 1)
    (hresp : (auditHandler W url).response = some response)
    (hbody : response.body = .report report) :
    ∀ n ∈ [report.security.score, report.performance.score, report.seo.score,
        report.accessibility.score], 0 ≤ n ∧ n ≤ 100 := by
  obtain ⟨s, results, security, _, hl, hsec, hrep⟩ :=
    auditHandler_report W url response report hresp hbody
  obtain ⟨lhr, he, hl2⟩ := runLighthouseScan_engine _ _ _ hl
  obtain ⟨_, h1, h2, h3⟩ := runLighthouseScan_ok _ _ _ hl2
  have hu := hunit lhr he
  obtain ⟨q1, a1, b1, c1⟩ := hu lhr.categories.performance (by simp)
  obtain ⟨q2, a2, b2, c2⟩ := hu lhr.categories.seo (by simp)
  obtain ⟨q3, a3, b3, c3⟩ := hu lhr.categories.accessibility (by simp)
  intro n hn
  simp only [hrep, List.mem_cons, List.mem_singleton, List.not_mem_nil, or_false] at hn
  rcases hn with rfl | rfl | rfl | rfl
  · exact runSecurityScan_score_range _ _ _ _ _ hsec
  · rw [h1]
    exact categoryScore_range _ _ q1 a1 b1 c1
  · rw [h2]
    exact categoryScore_range _ _ q2 a2 b2 c2
  · rw [h3]
    exact categoryScore_range _ _ q3 a3 b3 c3

/-- What the scan of `bareResponse` resolves with in November 2026. -/
theorem bareResponse_scan :
    runSecurityScan nodeFragment "https://example.com/" november2026 (.response bareResponse)
      = .ok demoReport.security := by
  have hc : scanResponse nodeFragment november2026 bareResponse = headerChecks bareResponse :=
    checkCertificate_far nodeFragment november2026 bareResponse _
      { valid_to := some "Jan  1 00:00:00 2030 GMT" } "Jan  1 00:00:00 2030 GMT" 1893456000000
      rfl rfl (by decide) rfl (by norm_num [november2026, msPerDay])
  have hh : headerChecks bareResponse
      = { issues := [hstsIssue, cspIssue, frameOptionsIssue], score := 35 } := by
    decide
  have hu : nodeFragment.urlParse "https://example.com/"
      = some { hostname := "example.com", port := "", pathname := "/" } := rfl
  simp only [runSecurityScan, hu, onResponse, hc, hh]
  rfl

/-- The run of the handler in `demoWorld` on `https://example.com/`. -/
theorem demoWorld_audit :
    auditHandler demoWorld (.string "https://example.com/") =
      { response := some { status := 200, body := .report demoReport },
        events := [.launch, .lighthouseScan, .securityScan, .kill] } := by
  have ht : JsValue.truthy (.string "https://example.com/") = true := by decide
  have hs : startsWith "https://example.com/" "http" = true := by decide
  have hl : runLighthouseScan demoWorld.platform demoWorld.engine = .ok demoResults :=
    demoLhr_results
  have hsec : runSecurityScan demoWorld.platform "https://example.com/" demoWorld.now
      demoWorld.request = .ok demoReport.security := bareResponse_scan
  have hlaunch : demoWorld.launch = .ok 9222 := rfl
  simp only [auditHandler, ht, hs, hl, hsec, hlaunch]
  rfl

/-- Witness of `report_scores_in_range` on the report of `demoWorld`, whose
scores are 35, 87, 100 and 50. -/
theorem report_scores_in_range_witness :
    (0 ≤ demoReport.security.score ∧ demoReport.security.score ≤ 100) ∧
      (0 ≤ demoReport.performance.score ∧ demoReport.performance.score ≤ 100) ∧
      (0 ≤ demoReport.seo.score ∧ demoReport.seo.score ≤ 100) ∧
      (0 ≤ demoReport.accessibility.score ∧ demoReport.accessibility.score ≤ 100) :=
  have h := report_scores_in_range demoWorld (.string "https://example.com/")
    { status := 200, body := .report demoReport } demoReport
    (by
      intro lhr h
      have e : lhr = demoLhr := by
        have h2 : (Except.ok demoLhr : Except JsError Lhr) = .ok lhr := h
        exact (Except.ok.inj h2).symm
      subst e
      intro c hc
      simp only [List.mem_cons, List.mem_singleton, List.not_mem_nil, or_false] at hc
      rcases hc with rfl | rfl | rfl
      · exact ⟨87 / 100, rfl, by norm_num, by norm_num⟩
      · exact ⟨1, rfl, by norm_num, by norm_num⟩
      · exact ⟨1 / 2, rfl, by norm_num, by norm_num⟩)
    (by rw [demoWorld_audit]) rfl
  ⟨h _ (by simp), h _ (by simp), h _ (by simp), h _ (by simp)⟩

/-! ## Input validation -/

/-- C10, as stated, fails: `http` is not an absolute URL and begins with
neither `http://` nor `https://`, yet it passes line 23; the browser is
launched, both scans are started, and the answer is 500, not 400. -/
theorem malformed_url_launches :
    (startsWith "http" "http://" = false ∧ startsWith "http" "https://" = false ∧
        nodeFragment.urlParse "http" = none) ∧
      auditHandler demoWorld (.string "http") =
        { response := some
            { status := 500,
              body := .error "Failed to complete the audit. The URL may be invalid or the server is down." },
          events := [.launch, .lighthouseScan, .securityScan, .kill] } := by
  refine ⟨by decide, ?_⟩
  have ht : JsValue.truthy (.string "http") = true := by decide
  have hs : startsWith "http" "http" = true := by decide
  have hl : runLighthouseScan demoWorld.platform demoWorld.engine = .ok demoResults :=
    demoLhr_results
  have hsec : runSecurityScan demoWorld.platform "http" demoWorld.now demoWorld.request
      = .error .invalidUrl := by decide
  have hlaunch : demoWorld.launch = .ok 9222 := rfl
  simp only [auditHandler, ht, hs, hl, hsec, hlaunch]
  rfl

/-- C10 (amended): if url is missing, empty or otherwise falsy, or is a string
that does not begin with the four characters `http`, the endpoint answers 400
with the error `A valid URL is required.` and makes no call at all (no browser
launch, no scan); conversely every url for which the browser is launched is a
string beginning with `http`. -/
theorem validation_gate (W : World) (url : JsValue) :
    ((url.truthy = false ∨ ∃ s, url = .string s ∧ startsWith s "http" = false) →
        auditHandler W url =
          { response := some { status := 400, body := .error "A valid URL is required." },
            events := [] }) ∧
      (Event.launch ∈ (auditHandler W url).events →
        ∃ s, url = .string s ∧ startsWith s "http" = true) := by
  constructor
  · rintro (h | ⟨s, rfl, h⟩)
    · simp [auditHandler, h, badRequest]
    · by_cases ht : JsValue.truthy (.string s) = true
      · simp [auditHandler, ht, h, badRequest]
      · simp [auditHandler, ht, badRequest]
  · intro h
    unfold auditHandler at h
    split_ifs at h with ht
    · simp at h
    · split at h
      · rename_i s
        split_ifs at h with hs
        · simp at h
        · exact ⟨s, rfl, by simpa using hs⟩
      · simp at h

/-- Witness of `validation_gate`: a missing url, an `ftp` url, and the url of
`demoWorld`. -/
theorem validation_gate_witness :
    auditHandler demoWorld .undefined =
        { response := some { status := 400, body := .error "A valid URL is required." },
          events := [] } ∧
      auditHandler demoWorld (.string "ftp://example.com/") =
        { response := some { status := 400, body := .error "A valid URL is required." },
          events := [] } ∧
      ∃ s, JsValue.string "https://example.com/" = .string s ∧ startsWith s "http" = true :=
  ⟨(validation_gate demoWorld .undefined).1 (Or.inl rfl),
    (validation_gate demoWorld (.string "ftp://example.com/")).1
      (Or.inr ⟨"ftp://example.com/", rfl, by decide⟩),
    (validation_gate demoWorld (.string "https://example.com/")).2
      (by rw [demoWorld_audit]; decide)⟩

/-! ## Browser lifecycle -/

/-- Once the launch returned a browser, the handler calls both scans and then
`chrome.kill`, whatever the scans return. -/
theorem auditHandler_events_launched (W : World) (s : String) (port : Nat)
    (hne : s ≠ "") (hs : startsWith s "http" = true) (hl : W.launch = .ok port) :
    (auditHandler W (.string s)).events = [.launch, .lighthouseScan, .securityScan, .kill] := by
  have ht : JsValue.truthy (.string s) = true := by simp [JsValue.truthy, hne]
  simp only [auditHandler, ht, hs, hl, Bool.not_true, Bool.false_eq_true, if_false]
  split <;> rfl

/-- The three shapes of the call sequence of the handler. -/
theorem auditHandler_events (W : World) (url : JsValue) :
    (auditHandler W url).events = [] ∨
      ((auditHandler W url).events = [.launch] ∧ ∃ e, W.launch = .error e) ∨
      ((auditHandler W url).events = [.launch, .lighthouseScan, .securityScan, .kill] ∧
        ∃ port, W.launch = .ok port) := by
  unfold auditHandler
  split_ifs with ht
  · exact Or.inl rfl
  · split
    · split_ifs with hs
      · exact Or.inl rfl
      · split
        · rename_i e he
          exact Or.inr (Or.inl ⟨rfl, e, he⟩)
        · rename_i port hp
          refine Or.inr (Or.inr ⟨?_, port, hp⟩)
          split <;> rfl
    · exact Or.inl rfl

/-- C11: when the browser launch succeeds, `chrome.kill` is called exactly
once, as the last call of the handler, whatever the two scans return; it is
not called when the launch fails or when the input is rejected before the
launch. -/
theorem kill_exactly_once (W : World) (url : JsValue) :
    (∀ port, W.launch = .ok port → Event.launch ∈ (auditHandler W url).events →
        (auditHandler W url).events = [.launch, .lighthouseScan, .securityScan, .kill] ∧
          (auditHandler W url).events.count .kill = 1) ∧
      (∀ e, W.launch = .error e → (auditHandler W url).events.count .kill = 0) ∧
      (Event.launch ∉ (auditHandler W url).events →
        (auditHandler W url).events.count .kill = 0) := by
  rcases auditHandler_events W url with h | ⟨h, e, he⟩ | ⟨h, port, hp⟩
  · rw [h]
    refine ⟨?_, ?_, ?_⟩
    · intro _ _ hmem
      simp at hmem
    · intro _ _
      rfl
    · intro _
      rfl
  · rw [h]
    refine ⟨?_, ?_, ?_⟩
    · intro port hp
      rw [he] at hp
      cases hp
    · intro _ _
      decide
    · intro _
      decide
  · rw [h]
    refine ⟨?_, ?_, ?_⟩
    · intro _ _ _
      exact ⟨rfl, by decide⟩
    · intro e he
      rw [hp] at he
      cases he
    · intro hmem
      exact absurd (by decide) hmem

/-- Witness of `kill_exactly_once`: both scans succeed, the engine call fails,
the security scan rejects on `http`, the launch fails, the url is missing. -/
theorem kill_exactly_once_witness :
    (auditHandler demoWorld (.string "https://example.com/")).events.count .kill = 1 ∧
      (auditHandler failedEngineWorld (.string "https://example.com/")).events.count .kill = 1 ∧
      (auditHandler demoWorld (.string "http")).events.count .kill = 1 ∧
      (auditHandler failedLaunchWorld (.string "https://example.com/")).events.count .kill = 0 ∧
      (auditHandler demoWorld .undefined).events.count .kill = 0 :=
  ⟨((kill_exactly_once demoWorld (.string "https://example.com/")).1 9222 rfl
      (by rw [auditHandler_events_launched demoWorld _ 9222 (by decide) (by decide) rfl]
          decide)).2,
    ((kill_exactly_once failedEngineWorld (.string "https://example.com/")).1 9222 rfl
      (by rw [auditHandler_events_launched failedEngineWorld _ 9222 (by decide) (by decide) rfl]
          decide)).2,
    ((kill_exactly_once demoWorld (.string "http")).1 9222 rfl
      (by rw [auditHandler_events_launched demoWorld _ 9222 (by decide) (by decide) rfl]
          decide)).2,
    (kill_exactly_once failedLaunchWorld (.string "https://example.com/")).2.1
      .launchFailure rfl,
    (kill_exactly_once demoWorld .undefined).2.2 (by decide)⟩

/-! ## Determinism -/

/-- The run of the handler when the launch and both scans succeed. -/
theorem auditHandler_success (W : World) (s : String) (port : Nat)
    (results : LighthouseResults) (security : Category)
    (hne : s ≠ "") (hs : startsWith s "http" = true) (hl : W.launch = .ok port)
    (hL : runLighthouseScan W.platform W.engine = .ok results)
    (hS : runSecurityScan W.platform s W.now W.request = .ok security) :
    auditHandler W (.string s) =
      { response := some
          { status := 200,
            body := .report
              { security := security, performance := results.performance,
                seo := results.seo, accessibility := results.accessibility } },
        events := [.launch, .lighthouseScan, .securityScan, .kill] } := by
  have ht : JsValue.truthy (.string s) = true := by simp [JsValue.truthy, hne]
  simp only [auditHandler, ht, hs, hl, hL, hS, Bool.not_true, Bool.false_eq_true, if_false]

/-- What the scan of `bareResponse` resolves with in February 2030. -/
theorem bareResponse_late_scan :
    runSecurityScan nodeFragment "https://example.com/" february2030 (.response bareResponse)
      = .ok lateReport.security := by
  have hc : scanResponse nodeFragment february2030 bareResponse
      = { issues := (headerChecks bareResponse).issues ++ [expiredIssue], score := 0 } :=
    checkCertificate_expired nodeFragment february2030 bareResponse _
      { valid_to := some "Jan  1 00:00:00 2030 GMT" } "Jan  1 00:00:00 2030 GMT" 1893456000000
      rfl rfl (by decide) rfl (by decide)
  have hh : headerChecks bareResponse
      = { issues := [hstsIssue, cspIssue, frameOptionsIssue], score := 35 } := by
    decide
  have hu : nodeFragment.urlParse "https://example.com/"
      = some { hostname := "example.com", port := "", pathname := "/" } := rfl
  simp only [runSecurityScan, hu, onResponse, hc, hh]
  rfl

/-- C12, as stated, fails: the response callback reads the clock (line 174).
The same url, engine response and TLS response give a security score of 35
with three issues in November 2026 and a score of 0 with four issues in
February 2030. -/
theorem clock_changes_report :
    (demoWorld.platform = lateWorld.platform ∧ demoWorld.engine = lateWorld.engine ∧
        demoWorld.request = lateWorld.request ∧ demoWorld.launch = lateWorld.launch) ∧
      (auditHandler demoWorld (.string "https://example.com/")).response
        = some { status := 200, body := .report demoReport } ∧
      (auditHandler lateWorld (.string "https://example.com/")).response
        = some { status := 200, body := .report lateReport } ∧
      demoReport ≠ lateReport := by
  refine ⟨⟨rfl, rfl, rfl, rfl⟩, ?_, ?_, ?_⟩
  · rw [auditHandler_success demoWorld _ 9222 demoResults demoReport.security (by decide)
      (by decide) rfl demoLhr_results bareResponse_scan]
    rfl
  · rw [auditHandler_success lateWorld _ 9222 demoResults lateReport.security (by decide)
      (by decide) rfl demoLhr_results bareResponse_late_scan]
    rfl
  · intro h
    have hscore : demoReport.security.score = lateReport.security.score := by rw [h]
    revert hscore
    decide

/-- The certificate check gives the same result at two readings of the clock
that put the expiry in the same case: already past, less than 30 days away
with the same whole number of days, or 30 days or more away. -/
theorem checkCertificate_clock (P : Platform) (now₁ now₂ : Int) (res : IncomingMessage)
    (st : Scan)
    (h : ∀ validTo expiryDate, usableValidTo res.peerCertificate = some validTo →
      P.dateParse validTo = some expiryDate →
      (((expiryDate - now₁ : Int) : ℚ) / msPerDay < 0 ∧
          ((expiryDate - now₂ : Int) : ℚ) / msPerDay < 0) ∨
        (0 ≤ ((expiryDate - now₁ : Int) : ℚ) / msPerDay ∧
          ((expiryDate - now₁ : Int) : ℚ) / msPerDay < 30 ∧
          0 ≤ ((expiryDate - now₂ : Int) : ℚ) / msPerDay ∧
          ((expiryDate - now₂ : Int) : ℚ) / msPerDay < 30 ∧
          mathFloor (((expiryDate - now₁ : Int) : ℚ) / msPerDay)
            = mathFloor (((expiryDate - now₂ : Int) : ℚ) / msPerDay)) ∨
        (30 ≤ ((expiryDate - now₁ : Int) : ℚ) / msPerDay ∧
          30 ≤ ((expiryDate - now₂ : Int) : ℚ) / msPerDay)) :
    checkCertificate P now₁ res st = checkCertificate P now₂ res st := by
  cases hu : usableValidTo res.peerCertificate with
  | none => simp only [checkCertificate, hu]
  | some validTo =>
    cases hd : P.dateParse validTo with
    | none => simp only [checkCertificate, hu, hd]
    | some expiryDate =>
      rcases h validTo expiryDate hu hd with ⟨a, b⟩ | ⟨a, b, c, d, e⟩ | ⟨a, b⟩
      · simp only [checkCertificate, hu, hd, if_pos a, if_pos b]
      · simp only [checkCertificate, hu, hd, if_neg (not_lt.mpr a), if_neg (not_lt.mpr c),
          if_pos b, if_pos d, e]
      · have a0 : ¬ ((expiryDate - now₁ : Int) : ℚ) / msPerDay < 0 := by
          intro h0
          linarith
        have b0 : ¬ ((expiryDate - now₂ : Int) : ℚ) / msPerDay < 0 := by
          intro h0
          linarith
        simp only [checkCertificate, hu, hd, if_neg a0, if_neg b0, if_neg (not_lt.mpr a),
          if_neg (not_lt.mpr b)]

/-- C12 (amended): two runs of the audit on the same url, the same engine
response and the same TLS response, in both of which the browser launches,
send identical responses, hence identical reports, when the clock read in the
response callback is the same in both, and more generally whenever the two
readings put the expiry of the certificate in the same case: already past,
less than 30 days away with the same whole number of days, or 30 days or more
away.  The report is a function of the url, the engine response, the TLS
response and the current time, and depends on the time through that case
only; the port of the browser plays no part. -/
theorem response_determined (W₁ W₂ : World) (url : JsValue) (port₁ port₂ : Nat)
    (hplatform : W₁.platform = W₂.platform) (hengine : W₁.engine = W₂.engine)
    (hrequest : W₁.request = W₂.request)
    (hlaunch₁ : W₁.launch = .ok port₁) (hlaunch₂ : W₂.launch = .ok port₂)
    (hclock : W₁.now = W₂.now ∨
      ∀ res validTo expiryDate, W₁.request = .response res →
        usableValidTo res.peerCertificate = some validTo →
        W₁.platform.dateParse validTo = some expiryDate →
        (((expiryDate - W₁.now : Int) : ℚ) / msPerDay < 0 ∧
            ((expiryDate - W₂.now : Int) : ℚ) / msPerDay < 0) ∨
          (0 ≤ ((expiryDate - W₁.now : Int) : ℚ) / msPerDay ∧
            ((expiryDate - W₁.now : Int) : ℚ) / msPerDay < 30 ∧
            0 ≤ ((expiryDate - W₂.now : Int) : ℚ) / msPerDay ∧
            ((expiryDate - W₂.now : Int) : ℚ) / msPerDay < 30 ∧
            mathFloor (((expiryDate - W₁.now : Int) : ℚ) / msPerDay)
              = mathFloor (((expiryDate - W₂.now : Int) : ℚ) / msPerDay)) ∨
          (30 ≤ ((expiryDate - W₁.now : Int) : ℚ) / msPerDay ∧
            30 ≤ ((expiryDate - W₂.now : Int) : ℚ) / msPerDay)) :
    (auditHandler W₁ url).response = (auditHandler W₂ url).response := by
  have hL : runLighthouseScan W₁.platform W₁.engine
      = runLighthouseScan W₂.platform W₂.engine := by
    rw [hplatform, hengine]
  have hS : ∀ s, runSecurityScan W₁.platform s W₁.now W₁.request
      = runSecurityScan W₂.platform s W₂.now W₂.request := by
    intro s
    rcases hclock with hnow | hcase
    · rw [hplatform, hrequest, hnow]
    · rw [← hplatform, ← hrequest]
      unfold runSecurityScan
      cases W₁.platform.urlParse s with
      | none => rfl
      | some parsedUrl =>
        cases hreq : W₁.request with
        | response res =>
          have hc := checkCertificate_clock W₁.platform W₁.now W₂.now res (headerChecks res)
            (fun validTo expiryDate hu hd => hcase res validTo expiryDate hreq hu hd)
          simp only [onResponse, scanResponse, hc]
        | error message => rfl
        | throws => rfl
  unfold auditHandler
  split_ifs
  · rfl
  · cases url with
    | string s =>
      simp only [hlaunch₁, hlaunch₂, hL, hS s]
    | _ => rfl

/-- Witness of `response_determined`: the request of `demoWorld` served on
5 November and on 25 December 2026, on ports 9222 and 9333; the certificate is
more than 30 days from expiry at both dates and both runs send `demoReport`. -/
theorem response_determined_witness :
    (demoWorld.now ≠ christmasWorld.now ∧ demoWorld.launch ≠ christmasWorld.launch) ∧
      (auditHandler demoWorld (.string "https://example.com/")).response
        = some { status := 200, body := .report demoReport } ∧
      (auditHandler demoWorld (.string "https://example.com/")).response
        = (auditHandler christmasWorld (.string "https://example.com/")).response :=
  ⟨⟨by decide, by decide⟩, by rw [demoWorld_audit],
    response_determined demoWorld christmasWorld (.string "https://example.com/") 9222 9333
      rfl rfl rfl rfl rfl
      (Or.inr (by
        intro res validTo expiryDate hreq hu hd
        have hres : res = bareResponse := by
          have h2 : RequestOutcome.response bareResponse = .response res := hreq
          exact (RequestOutcome.response.inj h2).symm
        subst hres
        have hv : validTo = "Jan  1 00:00:00 2030 GMT" := by
          have h3 : some "Jan  1 00:00:00 2030 GMT" = some validTo := hu
          exact (Option.some.inj h3).symm
        subst hv
        have he : expiryDate = 1893456000000 := by
          have h4 : some (1893456000000 : Int) = some expiryDate := hd
          exact (Option.some.inj h4).symm
        subst he
        refine Or.inr (Or.inr ⟨?_, ?_⟩)
        · norm_num [demoWorld, november2026, msPerDay]
        · norm_num [christmasWorld, christmas2026, msPerDay]))⟩

/-! ## Certificate check -/

/-- The test `certificate && certificate.valid_to` fails exactly when the
certificate is `null` or its expiry field is missing or empty. -/
theorem usableValidTo_none_iff (certificate : Option PeerCertificate) :
    usableValidTo certificate = none ↔
      certificate = none ∨
        ∃ c, certificate = some c ∧ (c.valid_to = none ∨ c.valid_to = some "") := by
  cases certificate with
  | none => simp [usableValidTo]
  | some c =>
    cases hv : c.valid_to with
    | none => simp [usableValidTo, truthy, hv]
    | some v =>
      by_cases hne : v = ""
      · simp [usableValidTo, truthy, hv, hne]
      · simp [usableValidTo, truthy, hv, hne]

/-- Without a usable expiry field the invalid issue is appended and the score
is zero. -/
theorem checkCertificate_unusable (P : Platform) (now : Int) (res : IncomingMessage)
    (st : Scan) (h : usableValidTo res.peerCertificate = none) :
    checkCertificate P now res st = { issues := st.issues ++ [invalidIssue], score := 0 } := by
  simp only [checkCertificate, h]

/-- With an expiry field the `Date` constructor cannot parse, nothing is
appended and nothing is deducted. -/
theorem checkCertificate_unparseable (P : Platform) (now : Int) (res : IncomingMessage)
    (st : Scan) (validTo : String) (h : usableValidTo res.peerCertificate = some validTo)
    (hdate : P.dateParse validTo = none) :
    checkCertificate P now res st = st := by
  simp only [checkCertificate, h, hdate]

/-- A certificate expiring in less than 30 days, not yet expired, appends the
expiring issue with the whole number of days and deducts 10. -/
theorem checkCertificate_soon (P : Platform) (now : Int) (res : IncomingMessage) (st : Scan)
    (validTo : String) (expiryDate : Int)
    (h : usableValidTo res.peerCertificate = some validTo)
    (hdate : P.dateParse validTo = some expiryDate)
    (h0 : 0 ≤ ((expiryDate - now : Int) : ℚ) / msPerDay)
    (h30 : ((expiryDate - now : Int) : ℚ) / msPerDay < 30) :
    checkCertificate P now res st =
      { issues := st.issues
          ++ [expiringIssue (mathFloor (((expiryDate - now : Int) : ℚ) / msPerDay))],
        score := st.score - 10 } := by
  simp only [checkCertificate, h, hdate, if_neg (not_lt.mpr h0), if_pos h30]

/-- The four ways the certificate check can end. -/
theorem checkCertificate_cases (P : Platform) (now : Int) (res : IncomingMessage) (st : Scan) :
    checkCertificate P now res st = st ∨
      (∃ days, checkCertificate P now res st =
        { issues := st.issues ++ [expiringIssue days], score := st.score - 10 }) ∨
      checkCertificate P now res st = { issues := st.issues ++ [expiredIssue], score := 0 } ∨
      checkCertificate P now res st = { issues := st.issues ++ [invalidIssue], score := 0 } := by
  unfold checkCertificate
  split
  · split
    · exact Or.inl rfl
    · simp only
      split_ifs
      · exact Or.inr (Or.inr (Or.inl rfl))
      · exact Or.inr (Or.inl ⟨_, rfl⟩)
      · exact Or.inl rfl
  · exact Or.inr (Or.inr (Or.inr rfl))

/-- The header checks for any headers: the score is 100 minus the deductions
of the headers that are not truthy, there is no issue exactly when the score is
100, and every issue is one of the three header issues. -/
theorem headerChecks_cases (res : IncomingMessage) :
    (headerChecks res).score =
        100 - (if truthy (res.headers "strict-transport-security") then 0 else 25)
          - (if truthy (res.headers "content-security-policy") then 0 else 20)
          - (if truthy (res.headers "x-frame-options") then 0 else 20) ∧
      ((headerChecks res).issues = [] ↔ (headerChecks res).score = 100) ∧
      ∀ issue ∈ (headerChecks res).issues,
        issue ∈ [hstsIssue, cspIssue, frameOptionsIssue] := by
  unfold headerChecks checkFrameOptions checkCsp checkHsts
  generalize truthy (res.headers "strict-transport-security") = a
  generalize truthy (res.headers "content-security-policy") = b
  generalize truthy (res.headers "x-frame-options") = c
  cases a <;> cases b <;> cases c <;> simp

/-- Without a usable expiry field (no certificate, or an expiry field missing
or empty) the scan returns score 0 whatever the headers, and its issue list
ends with the critical invalid issue. -/
theorem invalid_certificate (P : Platform) (url : String) (now : Int) (res : IncomingMessage)
    (parsedUrl : ParsedUrl) (hurl : P.urlParse url = some parsedUrl)
    (h : res.peerCertificate = none ∨
      ∃ c, res.peerCertificate = some c ∧ (c.valid_to = none ∨ c.valid_to = some "")) :
    runSecurityScan P url now (.response res) = .ok
        { title := "Security", icon := "shield", score := 0,
          issues := (headerChecks res).issues ++ [invalidIssue] } ∧
      invalidIssue.title = "SSL Certificate Invalid" ∧ invalidIssue.priority = .critical := by
  have hu := (usableValidTo_none_iff res.peerCertificate).2 h
  refine ⟨?_, rfl, rfl⟩
  simp only [runSecurityScan, hurl, onResponse, scanResponse,
    checkCertificate_unusable P now res _ hu]
  rfl

/-- C13 fails on the code at an expiry field that is not a date: for
`valid_to = "Bad time value"` the `Date` is invalid, `daysUntilExpiry` is NaN,
neither comparison of lines 175 and 178 holds, and with the three headers set
the scan returns score 100 and no issue instead of score 0 and the invalid
issue. -/
theorem unparseable_expiry_unreported :
    nodeFragment.dateParse "Bad time value" = none ∧
      runSecurityScan nodeFragment "https://example.com/" november2026
          (.response badTimeResponse)
        = .ok { title := "Security", icon := "shield", score := 100, issues := [] } := by
  decide

/-- C14: for a certificate expiring `d` days after the current time, if
`0 ≤ d < 30` the issue list is the header issues followed by one low-priority
`SSL Certificate Expiring Soon` issue whose description gives `floor(d)` days,
and the score is the header-only score minus 10; if `d ≥ 30`, exactly 30
included, the list holds the header issues only and the score is the
header-only score. -/
theorem expiring_soon_boundary (P : Platform) (url : String) (now : Int)
    (res : IncomingMessage) (parsedUrl : ParsedUrl) (cert : PeerCertificate)
    (validTo : String) (expiryDate : Int)
    (hurl : P.urlParse url = some parsedUrl)
    (hcert : res.peerCertificate = some cert) (hvalid : cert.valid_to = some validTo)
    (hne : validTo ≠ "") (hdate : P.dateParse validTo = some expiryDate) :
    (0 ≤ ((expiryDate - now : Int) : ℚ) / msPerDay →
        ((expiryDate - now : Int) : ℚ) / msPerDay < 30 →
        runSecurityScan P url now (.response res) = .ok
          { title := "Security", icon := "shield",
            score := (headerChecks res).score - 10,
            issues := (headerChecks res).issues ++
              [{ title := "SSL Certificate Expiring Soon",
                 priority := .low,
                 description :=
                   "The SSL/TLS certificate expires in "
                     ++ toString (mathFloor (((expiryDate - now : Int) : ℚ) / msPerDay))
                     ++ " days.",
                 recommendation :=
                   "Renew the SSL certificate soon to avoid service interruption and security warnings." }] }) ∧
      (30 ≤ ((expiryDate - now : Int) : ℚ) / msPerDay →
        runSecurityScan P url now (.response res) = .ok
          { title := "Security", icon := "shield",
            score := (headerChecks res).score,
            issues := (headerChecks res).issues }) ∧
      (∀ issue ∈ (headerChecks res).issues,
        issue ∈ [hstsIssue, cspIssue, frameOptionsIssue]) := by
  have hu : usableValidTo res.peerCertificate = some validTo := by
    simp [usableValidTo, hcert, hvalid, truthy, hne]
  have hrange := headerChecks_score res
  refine ⟨?_, ?_, (headerChecks_cases res).2.2⟩
  · intro h0 h30
    have hmax : max 0 ((headerChecks res).score - 10) = (headerChecks res).score - 10 :=
      max_eq_right (by linarith [hrange.1])
    simp only [runSecurityScan, hurl, onResponse, scanResponse,
      checkCertificate_soon P now res _ validTo expiryDate hu hdate h0 h30, hmax]
    rfl
  · intro hfar
    have hmax : max 0 (headerChecks res).score = (headerChecks res).score :=
      max_eq_right (by linarith [hrange.1])
    simp only [runSecurityScan, hurl, onResponse, scanResponse,
      checkCertificate_far P now res _ cert validTo expiryDate hcert hvalid hne hdate hfar, hmax]

/-- Witness of `expiring_soon_boundary`: no header, certificate valid until
1 January 2030, scanned eleven days and a half before (score 25, `11 days`)
and thirty days to the millisecond before (score 35, no certificate issue). -/
theorem expiring_soon_boundary_witness :
    runSecurityScan nodeFragment "https://example.com/" december2029 (.response bareResponse)
        = .ok { title := "Security", icon := "shield", score := 25,
                issues := [hstsIssue, cspIssue, frameOptionsIssue, expiringIssue 11] } ∧
      (expiringIssue 11).description = "The SSL/TLS certificate expires in 11 days." ∧
      runSecurityScan nodeFragment "https://example.com/" thirtyDaysBefore
          (.response bareResponse)
        = .ok { title := "Security", icon := "shield", score := 35,
                issues := [hstsIssue, cspIssue, frameOptionsIssue] } := by
  have hh : headerChecks bareResponse
      = { issues := [hstsIssue, cspIssue, frameOptionsIssue], score := 35 } := by
    decide
  have hf : mathFloor (((1893456000000 - december2029 : Int) : ℚ) / msPerDay) = 11 := by
    simp only [mathFloor, december2029, msPerDay, Int.floor_eq_iff]
    norm_num
  refine ⟨?_, by decide, ?_⟩
  · rw [(expiring_soon_boundary nodeFragment "https://example.com/" december2029 bareResponse
      { hostname := "example.com", port := "", pathname := "/" }
      { valid_to := some "Jan  1 00:00:00 2030 GMT" } "Jan  1 00:00:00 2030 GMT"
      1893456000000 rfl rfl rfl (by decide) rfl).1
      (by norm_num [december2029, msPerDay]) (by norm_num [december2029, msPerDay]), hh, hf]
    rfl
  · rw [(expiring_soon_boundary nodeFragment "https://example.com/" thirtyDaysBefore
      bareResponse { hostname := "example.com", port := "", pathname := "/" }
      { valid_to := some "Jan  1 00:00:00 2030 GMT" } "Jan  1 00:00:00 2030 GMT"
      1893456000000 rfl rfl rfl (by decide) rfl).2.1
      (by norm_num [thirtyDaysBefore, msPerDay]), hh]

/-! ## Records without description -/

/-- The run of the handler when the launch succeeds and the Lighthouse scan
rejects. -/
theorem auditHandler_lighthouse_failure (W : World) (s : String) (port : Nat) (e : JsError)
    (hne : s ≠ "") (hs : startsWith s "http" = true) (hl : W.launch = .ok port)
    (hL : runLighthouseScan W.platform W.engine = .error e) :
    auditHandler W (.string s) =
      { response := some serverError,
        events := [.launch, .lighthouseScan, .securityScan, .kill] } := by
  have ht : JsValue.truthy (.string s) = true := by simp [JsValue.truthy, hne]
  simp only [auditHandler, ht, hs, hl, hL, Bool.not_true, Bool.false_eq_true, if_false]

/-- A record with a description and no truthy savings value becomes an issue:
its recommendation is the stripped description, identical to its description
field, when the description is not empty, and the fallback string when it is
empty. -/
theorem description_recommendation (P : Platform) (audit : Audit) (d : String)
    (hdesc : audit.description = some d) (hsavings : truthySavings audit.details = none) :
    ∃ issue, auditToIssue P audit = .ok issue ∧
      (d ≠ "" → issue.recommendation = strip d ∧ issue.recommendation = issue.description) ∧
      (d = "" → issue.recommendation = "See Lighthouse report for details.") := by
  refine ⟨{ title := audit.title, priority := priorityOf audit.score, description := strip d,
            recommendation := recommendationOf P audit },
    by simp only [auditToIssue, hdesc], ?_, ?_⟩
  · intro hne
    simp only [recommendationOf, hsavings, hdesc, if_neg hne, and_self]
  · intro he
    simp only [recommendationOf, hsavings, hdesc, if_pos he]

/-- C15 fails on the code at a record without description: the record passes
the filter of line 88 and has no savings value, lines 95-101 select the
fallback recommendation, and then `audit.description.replace` of line 106
throws a `TypeError`; no issue is returned, the Lighthouse scan rejects and the
endpoint answers 500. -/
theorem undescribed_record_throws :
    (keepAudit undescribedAudit = true ∧ undescribedAudit.description = none ∧
        truthySavings undescribedAudit.details = none) ∧
      recommendationOf nodeFragment undescribedAudit = "See Lighthouse report for details." ∧
      auditToIssue nodeFragment undescribedAudit = .error .typeError ∧
      runLighthouseScan nodeFragment (.ok undescribedLhr) = .error .typeError ∧
      auditHandler undescribedWorld (.string "https://example.com/") =
        { response := some
            { status := 500,
              body := .error "Failed to complete the audit. The URL may be invalid or the server is down." },
          events := [.launch, .lighthouseScan, .securityScan, .kill] } := by
  have hk : keepAudit undescribedAudit = true := by
    simp [keepAudit, undescribedAudit]
  have hi : auditToIssue nodeFragment undescribedAudit = .error .typeError := rfl
  have hl : undescribedLhr.categories.seo.auditRefs.map (fun ref => undescribedLhr.audits ref.id)
      = [some undescribedAudit] := by
    simp [undescribedLhr]
  have hseo : mapAuditsToIssues nodeFragment undescribedLhr
      undescribedLhr.categories.seo.auditRefs = .error .typeError := by
    simp only [mapAuditsToIssues, hl, filterAudits, hk, mapIssues, hi]
  have hperf : undescribedLhr.categories.performance.auditRefs = [] := rfl
  have hnil : mapAuditsToIssues nodeFragment undescribedLhr [] = .ok [] := rfl
  have hrun : runLighthouseScan nodeFragment (.ok undescribedLhr) = .error .typeError := by
    simp only [runLighthouseScan, hperf, hnil, hseo]
  refine ⟨⟨hk, rfl, rfl⟩, rfl, hi, hrun, ?_⟩
  rw [auditHandler_lighthouse_failure undescribedWorld _ 9222 .typeError (by decide)
    (by decide) rfl hrun]
  rfl

/-! ## Score and issues of the security scan -/

/-- C16: for every response the score accumulated before `Math.max(0, score)`
is already non-negative, so the returned score is the accumulated one; it is
either 0, the list then ending with the expired or the invalid issue, or it is
100 minus the deductions applied (25, 20, 20 for the headers, 10 for a
certificate expiring soon) and at least 25. -/
theorem clamp_never_applies (P : Platform) (now : Int) (res : IncomingMessage) :
    0 ≤ (scanResponse P now res).score ∧
      (onResponse P now res).score = (scanResponse P now res).score ∧
      (((scanResponse P now res).score = 0 ∧
          ((scanResponse P now res).issues.getLast? = some expiredIssue ∨
            (scanResponse P now res).issues.getLast? = some invalidIssue)) ∨
        (25 ≤ (scanResponse P now res).score ∧
          ∃ d ∈ [(0 : Int), 10],
            (scanResponse P now res).score =
              100 - (if truthy (res.headers "strict-transport-security") then 0 else 25)
                - (if truthy (res.headers "content-security-policy") then 0 else 20)
                - (if truthy (res.headers "x-frame-options") then 0 else 20) - d)) := by
  have hrange := headerChecks_score res
  have hscore := (headerChecks_cases res).1
  have key : 0 ≤ (scanResponse P now res).score ∧
      (((scanResponse P now res).score = 0 ∧
          ((scanResponse P now res).issues.getLast? = some expiredIssue ∨
            (scanResponse P now res).issues.getLast? = some invalidIssue)) ∨
        (25 ≤ (scanResponse P now res).score ∧
          ∃ d ∈ [(0 : Int), 10],
            (scanResponse P now res).score =
              100 - (if truthy (res.headers "strict-transport-security") then 0 else 25)
                - (if truthy (res.headers "content-security-policy") then 0 else 20)
                - (if truthy (res.headers "x-frame-options") then 0 else 20) - d)) := by
    unfold scanResponse
    rcases checkCertificate_cases P now res (headerChecks res) with h | ⟨days, h⟩ | h | h
    · rw [h]
      refine ⟨by linarith [hrange.1], Or.inr ⟨by linarith [hrange.1], 0, by simp, ?_⟩⟩
      rw [hscore]
      ring
    · rw [h]
      refine ⟨by simp only; linarith [hrange.1],
        Or.inr ⟨by simp only; linarith [hrange.1], 10, by simp, ?_⟩⟩
      simp only
      rw [hscore]
    · rw [h]
      exact ⟨le_refl _, Or.inl ⟨rfl, Or.inl (List.getLast?_concat _)⟩⟩
    · rw [h]
      exact ⟨le_refl _, Or.inl ⟨rfl, Or.inr (List.getLast?_concat _)⟩⟩
  refine ⟨key.1, ?_, key.2⟩
  simp only [onResponse]
  exact max_eq_right key.1

/-- The response callback resolves with score 100 exactly when it found no
issue. -/
theorem onResponse_perfect_iff (P : Platform) (now : Int) (res : IncomingMessage) :
    (onResponse P now res).score = 100 ↔ (onResponse P now res).issues = [] := by
  have hrange := headerChecks_score res
  have hiff := (headerChecks_cases res).2.1
  simp only [onResponse, scanResponse]
  rcases checkCertificate_cases P now res (headerChecks res) with h | ⟨days, h⟩ | h | h
  · rw [h, max_eq_right (by linarith [hrange.1])]
    exact hiff.symm
  · rw [h]
    simp only [List.append_eq_nil, List.cons_ne_self, and_false, iff_false]
    rw [max_eq_right (by linarith [hrange.1])]
    intro h100
    linarith [hrange.2]
  · rw [h]
    simp
  · rw [h]
    simp

/-- C17: whatever the scan resolves with, on a response or on a transport
error, its score is 100 if and only if its issue list is empty. -/
theorem perfect_score_iff_no_issue (P : Platform) (url : String) (now : Int)
    (outcome : RequestOutcome) (category : Category)
    (h : runSecurityScan P url now outcome = .ok category) :
    category.score = 100 ↔ category.issues = [] := by
  unfold runSecurityScan at h
  split at h
  · cases h
  · split at h
    · cases h
      exact onResponse_perfect_iff P now _
    · cases h
      simp [onError]
    · cases h

/-- What the scan of `hardenedResponse` resolves with in November 2026. -/
theorem hardenedResponse_scan :
    runSecurityScan nodeFragment "https://example.com/" november2026
        (.response hardenedResponse)
      = .ok { title := "Security", icon := "shield", score := 100, issues := [] } := by
  have hc : scanResponse nodeFragment november2026 hardenedResponse
      = headerChecks hardenedResponse :=
    checkCertificate_far nodeFragment november2026 hardenedResponse _
      { valid_to := some "Jan  1 00:00:00 2030 GMT" } "Jan  1 00:00:00 2030 GMT" 1893456000000
      rfl rfl (by decide) rfl (by norm_num [november2026, msPerDay])
  have hh : headerChecks hardenedResponse = { issues := [], score := 100 } := by
    decide
  have hu : nodeFragment.urlParse "https://example.com/"
      = some { hostname := "example.com", port := "", pathname := "/" } := rfl
  simp only [runSecurityScan, hu, onResponse, hc, hh]
  rfl

/-- Witness of `perfect_score_iff_no_issue`: the three headers set and a
certificate valid for three more years (score 100, no issue), and a refused
connection (score 0, one issue). -/
theorem perfect_score_iff_no_issue_witness :
    (runSecurityScan nodeFragment "https://example.com/" november2026
          (.response hardenedResponse)
        = .ok { title := "Security", icon := "shield", score := 100, issues := [] } ∧
      ((100 : Int) = 100 ↔ ([] : List Issue) = [])) ∧
      (runSecurityScan nodeFragment "https://example.com/" november2026
          (.error "connect ECONNREFUSED")
        = .ok { title := "Security", icon := "shield", score := 0,
                issues := [connectIssue "example.com"] } ∧
      ((0 : Int) = 100 ↔ [connectIssue "example.com"] = [])) :=
  ⟨⟨hardenedResponse_scan,
      perfect_score_iff_no_issue nodeFragment "https://example.com/" november2026
        (.response hardenedResponse)
        { title := "Security", icon := "shield", score := 100, issues := [] }
        hardenedResponse_scan⟩,
    ⟨rfl,
      perfect_score_iff_no_issue nodeFragment "https://example.com/" november2026
        (.error "connect ECONNREFUSED")
        { title := "Security", icon := "shield", score := 0,
          issues := [connectIssue "example.com"] }
        rfl⟩⟩

end Server
